import Mathlib

/-!
Verification development for the `clickup_operator` MCP server
(`src/clickup_operator/server.py`, `src/clickup_operator/clickup.py`).

The Python program is shallowly embedded:
* JSON documents are the inductive `Json`; Python dicts of JSON values are
  ordered association lists (`Dict`).
* Outbound HTTP requests are the record `HttpRequest` (verb, full URL,
  client headers, query parameters, JSON body); the remote's answer to the
  single request an invocation performs is an `HttpResponse` value passed
  in as an oracle.
* Python exceptions that the adapter can raise are the constructors of
  `CallError` (`ValueError("Missing arguments")`, `KeyError`,
  `ValueError(f"Unknown tool: ...")`, `httpx.HTTPStatusError` from
  `raise_for_status`, the missing-token `ValueError`, and the
  `RuntimeError` after the startup retry loop).
* Every `ClickUpAPI` method in `clickup.py` has the shape
  "build one request; `response.raise_for_status()`; return
  `response.json()` or `response.json()[key]`"; a method is embedded as a
  `ClientCall` (verb, path under the base URL, params, body, extraction
  key) and the shared response handling is `processResponse`.
* The `handle_call_tool` if/elif dispatch in `server.py` compares the tool
  name against one string literal per branch, in order; it is embedded as
  first-match lookup in `branchHandlers`, whose entries appear in the
  branch order of the source.  Each handler either fails before any
  request (`BranchSpec.failEarly`) or issues exactly one request and
  renders the decoded JSON into the single `TextContent` block that every
  branch of the source returns (`BranchSpec.call`); the branch-specific
  text is the `render` function.
-/

/-- JSON values, as decoded by `response.json()` and as sent with
`json=`/`params=` by `httpx`.  Numbers are modelled as integers (all
numeric fields of this adapter are ids, timestamps and counts). -/
inductive Json where
  | null
  | bool (b : Bool)
  | num (n : Int)
  | str (s : String)
  | arr (xs : List Json)
  | obj (fields : List (String × Json))

/-- A Python dict with JSON values: insertion-ordered key/value pairs. -/
abbrev Dict := List (String × Json)

/-- The single-quote character, used by Python `repr` of strings. -/
def sqc : Char := '\x27'

/-- The single-quote as a one-character string. -/
def pySq : String := String.singleton sqc

mutual
/-- Python `str()`/`repr()` of a decoded-JSON value, as produced inside an
f-string for non-string values: `None`, `True`/`False`, decimal integers,
`repr` for strings inside containers, and the bracketed forms for lists
and dicts. -/
def pyRepr : Json → String
  | .null => "None"
  | .bool true => "True"
  | .bool false => "False"
  | .num n => toString n
  | .str s => pySq ++ s ++ pySq
  | .arr xs => "[" ++ pyReprArr xs ++ "]"
  | .obj d => "\x7b" ++ pyReprObj d ++ "\x7d"

/-- Comma-separated `repr`s of list elements. -/
def pyReprArr : List Json → String
  | [] => ""
  | [x] => pyRepr x
  | x :: y :: xs => pyRepr x ++ ", " ++ pyReprArr (y :: xs)

/-- Comma-separated `'key': value` entries of a dict `repr`. -/
def pyReprObj : List (String × Json) → String
  | [] => ""
  | [(k, v)] => pySq ++ k ++ pySq ++ ": " ++ pyRepr v
  | (k, v) :: y :: xs => pySq ++ k ++ pySq ++ ": " ++ pyRepr v ++ ", " ++ pyReprObj (y :: xs)
end

/-- Python `str()` of a value, as interpolated by an f-string: the bare
contents for a string, `repr`-style text for everything else. -/
def pyStr : Json → String
  | .str s => s
  | j => pyRepr j

/-- Python truthiness of a decoded-JSON value (`if entry:`,
`if start_date:`). -/
def pyTruthy : Json → Bool
  | .null => false
  | .bool b => b
  | .num n => n != 0
  | .str s => !s.isEmpty
  | .arr xs => !xs.isEmpty
  | .obj d => !d.isEmpty

/-- The errors an invocation can raise, one constructor per Python
exception site. -/
inductive CallError where
  /-- `ValueError("Missing arguments")` raised by a branch when the
  argument mapping is `None` or empty. -/
  | missingArguments
  /-- `KeyError(key)` from `arguments["key"]`, `arguments.pop(key)` or
  `result["key"]`. -/
  | pyKeyError (key : String)
  /-- `TypeError` from indexing or iterating a non-container. -/
  | pyTypeError
  /-- `AttributeError` from calling `.get` on a non-dict. -/
  | pyAttributeError
  /-- `ValueError(f"Unknown tool: {name}")` from the final else branch. -/
  | unknownTool (toolName : String)
  /-- `httpx.HTTPStatusError` raised by `response.raise_for_status()`;
  carries the response's status code and body. -/
  | remoteRequestFailed (status : Nat) (body : Json)
  /-- `ValueError("CLICKUP_API_TOKEN environment variable not set")`. -/
  | missingCredential
  /-- `RuntimeError("Failed to initialize ClickUp client after 3
  attempts")`. -/
  | initFailed

/-- HTTP verbs used by the client. -/
inductive Verb where
  | get
  | post
  | put
  | delete

/-- One outbound HTTP request: verb, absolute URL, the client-level
headers `httpx.AsyncClient` attaches to every request, query parameters
(`params=`) and optional JSON body (`json=`). -/
structure HttpRequest where
  verb : Verb
  url : String
  headers : List (String × String)
  params : Dict
  body : Option Json

/-- The remote service's answer to a request: HTTP status and decoded
JSON body. -/
structure HttpResponse where
  status : Nat
  body : Json

/-- One content block of a tool result; every branch of the source
constructs `types.TextContent(type="text", text=...)`. -/
structure Content where
  type : String
  text : String

/-- `types.TextContent(type="text", text=t)`. -/
def TextContent (t : String) : Content := { type := "text", text := t }

/-- `d.lookup k` — first value stored under `k`, if any. -/
def dictLookup : Dict → String → Option Json
  | [], _ => none
  | (k', v) :: rest, k => if k' == k then some v else dictLookup rest k

/-- Python `arguments[k]`: the value, or `KeyError(k)`. -/
def dictGetItem (d : Dict) (k : String) : Except CallError Json :=
  match dictLookup d k with
  | some v => .ok v
  | none => .error (.pyKeyError k)

/-- Python `arguments.get(k, default)` (with `default = Json.null` for the
one-argument form `arguments.get(k)`). -/
def dictGet (d : Dict) (k : String) (default : Json) : Json :=
  (dictLookup d k).getD default

/-- Remove the entry stored under `k` (the mutation performed by
`arguments.pop(k)` after its lookup succeeded). -/
def dictErase : Dict → String → Dict
  | [], _ => []
  | (k', v) :: rest, k => if k' == k then rest else (k', v) :: dictErase rest k

/-- Python dict-literal update `{..., **kwargs}`: each `kwargs` entry
overwrites the value in place if the key exists, else is appended. -/
def dictSetKey : Dict → String → Json → Dict
  | [], k, v => [(k, v)]
  | (k', v') :: rest, k, v =>
    if k' == k then (k', v) :: rest else (k', v') :: dictSetKey rest k v

/-- `{base..., **kwargs}` — fold `dictSetKey` over the keyword entries. -/
def dictUpdate (base : Dict) (kwargs : Dict) : Dict :=
  kwargs.foldl (fun acc p => dictSetKey acc p.1 p.2) base

/-- Whether the dict has no entries (`not arguments` for `{}`). -/
def dictIsEmpty : Dict → Bool
  | [] => true
  | _ :: _ => false

/-- Python `result[k]` on a decoded-JSON value: `KeyError` on a dict
without the key, `TypeError` on a non-dict. -/
def pyGetItem (j : Json) (k : String) : Except CallError Json :=
  match j with
  | .obj d => dictGetItem d k
  | _ => .error .pyTypeError

/-- Python `result.get(k, default)` on a decoded-JSON value:
`AttributeError` on a non-dict. -/
def pyGet (j : Json) (k : String) (default : Json) : Except CallError Json :=
  match j with
  | .obj d => .ok (dictGet d k default)
  | _ => .error .pyAttributeError

/-- Python `for x in j`: list elements, dict keys, or the characters of a
string; `TypeError` otherwise. -/
def pyIter (j : Json) : Except CallError (List Json) :=
  match j with
  | .arr xs => .ok xs
  | .obj d => .ok (d.map fun p => .str p.1)
  | .str s => .ok (s.data.map fun c => .str (String.singleton c))
  | _ => .error .pyTypeError

/-- The connection state built by `ClickUpAPI.__init__`: the token, the
fixed base URL, and the header set handed to `httpx.AsyncClient`, which
attaches it to every outbound request. -/
structure ClickUpAPI where
  api_key : String
  base_url : String
  headers : List (String × String)

/-- `ClickUpAPI.__init__(api_key)`: stores the raw token under
`Authorization` (no `Bearer ` prefix) next to the JSON content type, and
fixes the v2 base path. -/
def ClickUpAPI.init (api_key : String) : ClickUpAPI :=
  { api_key := api_key
    base_url := "https://api.clickup.com/api/v2"
    headers := [("Authorization", api_key), ("Content-Type", "application/json")] }

/-- `httpx` success test used by `raise_for_status`: a 2xx status. -/
def is2xx (status : Nat) : Bool := 200 ≤ status && status < 300

/-- `response.raise_for_status()`: the response itself on 2xx, otherwise
an `HTTPStatusError` carrying status and body. -/
def raise_for_status (resp : HttpResponse) : Except CallError HttpResponse :=
  if is2xx resp.status then .ok resp
  else .error (.remoteRequestFailed resp.status resp.body)

/-- The uniform tail of every `ClickUpAPI` method:
`response.raise_for_status()` then `response.json()` (key `none`) or
`response.json()[k]` (key `some k`). -/
def processResponse (extractKey : Option String) (resp : HttpResponse) : Except CallError Json :=
  match raise_for_status resp with
  | .error e => .error e
  | .ok r =>
    match extractKey with
    | none => .ok r.body
    | some k => pyGetItem r.body k

/-- One `ClickUpAPI` method, before the session state is applied: the verb,
the path interpolated below `self.base_url`, query parameters, JSON body,
and the fixed sub-collection key the method extracts from the decoded
response (`none` when it returns the whole document). -/
structure ClientCall where
  verb : Verb
  path : String
  params : Dict
  body : Option Json
  extractKey : Option String

/-- Run a method's response handling against the remote's answer. -/
def ClientCall.run (c : ClientCall) (resp : HttpResponse) : Except CallError Json :=
  processResponse c.extractKey resp

/-- Materialise the request a method issues through a given session:
`self.client.<verb>(f"{self.base_url}{path}", ...)` with the session's
headers. -/
def toRequest (st : ClickUpAPI) (c : ClientCall) : HttpRequest :=
  { verb := c.verb
    url := st.base_url ++ c.path
    headers := st.headers
    params := c.params
    body := c.body }

/-- `get_authorized_user`: `GET /user`, returns `response.json()["user"]`. -/
def ClickUpAPI.get_authorized_user : ClientCall :=
  { verb := .get, path := "/user", params := [], body := none, extractKey := some "user" }

/-- `get_teams`: `GET /team`, returns `response.json()["teams"]`. -/
def ClickUpAPI.get_teams : ClientCall :=
  { verb := .get, path := "/team", params := [], body := none, extractKey := some "teams" }

/-- `get_spaces(team_id)`: `GET /team/{team_id}/space`, returns `["spaces"]`. -/
def ClickUpAPI.get_spaces (team_id : Json) : ClientCall :=
  { verb := .get, path := "/team/" ++ pyStr team_id ++ "/space", params := [], body := none,
    extractKey := some "spaces" }

/-- `create_space(team_id, name, **kwargs)`: `POST /team/{team_id}/space`,
body `{"name": name, **kwargs}`. -/
def ClickUpAPI.create_space (team_id nameArg : Json) (kwargs : Dict) : ClientCall :=
  { verb := .post, path := "/team/" ++ pyStr team_id ++ "/space", params := [],
    body := some (.obj (dictUpdate [("name", nameArg)] kwargs)), extractKey := none }

/-- `get_lists(space_id)`: `GET /space/{space_id}/list`, returns `["lists"]`. -/
def ClickUpAPI.get_lists (space_id : Json) : ClientCall :=
  { verb := .get, path := "/space/" ++ pyStr space_id ++ "/list", params := [], body := none,
    extractKey := some "lists" }

/-- `create_task(list_id, name, **kwargs)`: `POST /list/{list_id}/task`,
body `{"name": name, **kwargs}`. -/
def ClickUpAPI.create_task (list_id nameArg : Json) (kwargs : Dict) : ClientCall :=
  { verb := .post, path := "/list/" ++ pyStr list_id ++ "/task", params := [],
    body := some (.obj (dictUpdate [("name", nameArg)] kwargs)), extractKey := none }

/-- `get_tasks(list_id, **kwargs)`: `GET /list/{list_id}/task` with the
keyword mapping as query parameters, returns `["tasks"]`. -/
def ClickUpAPI.get_tasks (list_id : Json) (kwargs : Dict) : ClientCall :=
  { verb := .get, path := "/list/" ++ pyStr list_id ++ "/task", params := kwargs, body := none,
    extractKey := some "tasks" }

/-- `update_task(task_id, **kwargs)`: `PUT /task/{task_id}` with the
keyword mapping as JSON body. -/
def ClickUpAPI.update_task (task_id : Json) (kwargs : Dict) : ClientCall :=
  { verb := .put, path := "/task/" ++ pyStr task_id, params := [],
    body := some (.obj kwargs), extractKey := none }

/-- `create_task_comment(task_id, comment_text, **kwargs)`:
`POST /task/{task_id}/comment`, body `{"comment_text": ..., **kwargs}`. -/
def ClickUpAPI.create_task_comment (task_id comment_text : Json) (kwargs : Dict) : ClientCall :=
  { verb := .post, path := "/task/" ++ pyStr task_id ++ "/comment", params := [],
    body := some (.obj (dictUpdate [("comment_text", comment_text)] kwargs)), extractKey := none }

/-- `start_time_entry(task_id, **kwargs)`: `POST /task/{task_id}/time`. -/
def ClickUpAPI.start_time_entry (task_id : Json) (kwargs : Dict) : ClientCall :=
  { verb := .post, path := "/task/" ++ pyStr task_id ++ "/time", params := [],
    body := some (.obj kwargs), extractKey := none }

/-- `stop_time_entry(task_id, **kwargs)`: `PUT /task/{task_id}/time`. -/
def ClickUpAPI.stop_time_entry (task_id : Json) (kwargs : Dict) : ClientCall :=
  { verb := .put, path := "/task/" ++ pyStr task_id ++ "/time", params := [],
    body := some (.obj kwargs), extractKey := none }

/-- `get_accessible_custom_fields(list_id)`: `GET /list/{list_id}/field`,
returns `["fields"]`. -/
def ClickUpAPI.get_accessible_custom_fields (list_id : Json) : ClientCall :=
  { verb := .get, path := "/list/" ++ pyStr list_id ++ "/field", params := [], body := none,
    extractKey := some "fields" }

/-- `create_checklist(task_id, name)`: `POST /task/{task_id}/checklist`,
body `{"name": name}`. -/
def ClickUpAPI.create_checklist (task_id nameArg : Json) : ClientCall :=
  { verb := .post, path := "/task/" ++ pyStr task_id ++ "/checklist", params := [],
    body := some (.obj [("name", nameArg)]), extractKey := none }

/-- `edit_checklist(checklist_id, name)`: `PUT /checklist/{checklist_id}`,
body `{"name": name}`. -/
def ClickUpAPI.edit_checklist (checklist_id nameArg : Json) : ClientCall :=
  { verb := .put, path := "/checklist/" ++ pyStr checklist_id, params := [],
    body := some (.obj [("name", nameArg)]), extractKey := none }

/-- `delete_checklist(checklist_id)`: `DELETE /checklist/{checklist_id}`. -/
def ClickUpAPI.delete_checklist (checklist_id : Json) : ClientCall :=
  { verb := .delete, path := "/checklist/" ++ pyStr checklist_id, params := [], body := none,
    extractKey := none }

/-- `create_checklist_item(checklist_id, name, **kwargs)`:
`POST /checklist/{checklist_id}/checklist_item`, body `{"name": ..., **kwargs}`. -/
def ClickUpAPI.create_checklist_item (checklist_id nameArg : Json) (kwargs : Dict) : ClientCall :=
  { verb := .post, path := "/checklist/" ++ pyStr checklist_id ++ "/checklist_item", params := [],
    body := some (.obj (dictUpdate [("name", nameArg)] kwargs)), extractKey := none }

/-- `create_space_tag(space_id, name, **kwargs)`: `POST /space/{space_id}/tag`,
body `{"name": ..., **kwargs}`. -/
def ClickUpAPI.create_space_tag (space_id nameArg : Json) (kwargs : Dict) : ClientCall :=
  { verb := .post, path := "/space/" ++ pyStr space_id ++ "/tag", params := [],
    body := some (.obj (dictUpdate [("name", nameArg)] kwargs)), extractKey := none }

/-- `get_task_watchers(task_id)`: `GET /task/{task_id}/watching`, returns
`["watchers"]`. -/
def ClickUpAPI.get_task_watchers (task_id : Json) : ClientCall :=
  { verb := .get, path := "/task/" ++ pyStr task_id ++ "/watching", params := [], body := none,
    extractKey := some "watchers" }

/-- `add_task_watcher(task_id, watcher_id)`: `POST /task/{task_id}/watching`,
body `{"watcher_id": watcher_id}`. -/
def ClickUpAPI.add_task_watcher (task_id watcher_id : Json) : ClientCall :=
  { verb := .post, path := "/task/" ++ pyStr task_id ++ "/watching", params := [],
    body := some (.obj [("watcher_id", watcher_id)]), extractKey := none }

/-- `add_task_dependency(task_id, depends_on, dependency_type)`:
`POST /task/{task_id}/dependency`, body with both fields. -/
def ClickUpAPI.add_task_dependency (task_id depends_on dependency_type : Json) : ClientCall :=
  { verb := .post, path := "/task/" ++ pyStr task_id ++ "/dependency", params := [],
    body := some (.obj [("depends_on", depends_on), ("dependency_type", dependency_type)]),
    extractKey := none }

/-- `get_task_dependencies(task_id)`: `GET /task/{task_id}/dependency`,
returns `["dependencies"]`. -/
def ClickUpAPI.get_task_dependencies (task_id : Json) : ClientCall :=
  { verb := .get, path := "/task/" ++ pyStr task_id ++ "/dependency", params := [], body := none,
    extractKey := some "dependencies" }

/-- `remove_task_dependency(task_id, dependency_id)`:
`DELETE /task/{task_id}/dependency/{dependency_id}`. -/
def ClickUpAPI.remove_task_dependency (task_id dependency_id : Json) : ClientCall :=
  { verb := .delete, path := "/task/" ++ pyStr task_id ++ "/dependency/" ++ pyStr dependency_id,
    params := [], body := none, extractKey := none }

/-- `delete_comment(comment_id)`: `DELETE /comment/{comment_id}`. -/
def ClickUpAPI.delete_comment (comment_id : Json) : ClientCall :=
  { verb := .delete, path := "/comment/" ++ pyStr comment_id, params := [], body := none,
    extractKey := none }

/-- `get_comments(task_id)`: `GET /task/{task_id}/comment`, returns
`["comments"]`. -/
def ClickUpAPI.get_comments (task_id : Json) : ClientCall :=
  { verb := .get, path := "/task/" ++ pyStr task_id ++ "/comment", params := [], body := none,
    extractKey := some "comments" }

/-- `update_comment(comment_id, comment_text, **kwargs)`:
`PUT /comment/{comment_id}`, body `{"comment_text": ..., **kwargs}`. -/
def ClickUpAPI.update_comment (comment_id comment_text : Json) (kwargs : Dict) : ClientCall :=
  { verb := .put, path := "/comment/" ++ pyStr comment_id, params := [],
    body := some (.obj (dictUpdate [("comment_text", comment_text)] kwargs)), extractKey := none }

/-- `create_folder(space_id, name, **kwargs)`: `POST /space/{space_id}/folder`,
body `{"name": ..., **kwargs}`. -/
def ClickUpAPI.create_folder (space_id nameArg : Json) (kwargs : Dict) : ClientCall :=
  { verb := .post, path := "/space/" ++ pyStr space_id ++ "/folder", params := [],
    body := some (.obj (dictUpdate [("name", nameArg)] kwargs)), extractKey := none }

/-- `create_folderless_list(space_id, name, **kwargs)`:
`POST /space/{space_id}/list`, body `{"name": ..., **kwargs}`. -/
def ClickUpAPI.create_folderless_list (space_id nameArg : Json) (kwargs : Dict) : ClientCall :=
  { verb := .post, path := "/space/" ++ pyStr space_id ++ "/list", params := [],
    body := some (.obj (dictUpdate [("name", nameArg)] kwargs)), extractKey := none }

/-- `create_goal(team_id, name, **kwargs)`: `POST /team/{team_id}/goal`,
body `{"name": ..., **kwargs}`. -/
def ClickUpAPI.create_goal (team_id nameArg : Json) (kwargs : Dict) : ClientCall :=
  { verb := .post, path := "/team/" ++ pyStr team_id ++ "/goal", params := [],
    body := some (.obj (dictUpdate [("name", nameArg)] kwargs)), extractKey := none }

/-- `invite_guest(team_id, email, **kwargs)`: `POST /team/{team_id}/guest`,
body `{"email": ..., **kwargs}`. -/
def ClickUpAPI.invite_guest (team_id email : Json) (kwargs : Dict) : ClientCall :=
  { verb := .post, path := "/team/" ++ pyStr team_id ++ "/guest", params := [],
    body := some (.obj (dictUpdate [("email", email)] kwargs)), extractKey := none }

/-- `get_task_members(task_id)`: `GET /task/{task_id}/member`, returns
`["members"]`. -/
def ClickUpAPI.get_task_members (task_id : Json) : ClientCall :=
  { verb := .get, path := "/task/" ++ pyStr task_id ++ "/member", params := [], body := none,
    extractKey := some "members" }

/-- `get_task_templates(team_id, page)`: `GET /team/{team_id}/taskTemplate`
with `params={"page": page}`, returns `["templates"]`. -/
def ClickUpAPI.get_task_templates (team_id page : Json) : ClientCall :=
  { verb := .get, path := "/team/" ++ pyStr team_id ++ "/taskTemplate",
    params := [("page", page)], body := none, extractKey := some "templates" }

/-- `create_task_from_template(list_id, template_id, name)`:
`POST /list/{list_id}/taskTemplate/{template_id}`, body `{"name": name}`. -/
def ClickUpAPI.create_task_from_template (list_id template_id nameArg : Json) : ClientCall :=
  { verb := .post, path := "/list/" ++ pyStr list_id ++ "/taskTemplate/" ++ pyStr template_id,
    params := [], body := some (.obj [("name", nameArg)]), extractKey := none }

/-- `get_time_entries(team_id, start_date=None, end_date=None, **kwargs)`:
`GET /team/{team_id}/time_entries`; params start from the keyword mapping
and `start_date`/`end_date` are appended only when truthy; returns
`["data"]`. -/
def ClickUpAPI.get_time_entries (team_id start_date end_date : Json) (kwargs : Dict) : ClientCall :=
  let params0 := kwargs
  let params1 := if pyTruthy start_date then dictSetKey params0 "start_date" start_date else params0
  let params2 := if pyTruthy end_date then dictSetKey params1 "end_date" end_date else params1
  { verb := .get, path := "/team/" ++ pyStr team_id ++ "/time_entries", params := params2,
    body := none, extractKey := some "data" }

/-- `get_time_entry_history(team_id, timer_id)`:
`GET /team/{team_id}/time_entries/{timer_id}/history`, returns `["data"]`. -/
def ClickUpAPI.get_time_entry_history (team_id timer_id : Json) : ClientCall :=
  { verb := .get,
    path := "/team/" ++ pyStr team_id ++ "/time_entries/" ++ pyStr timer_id ++ "/history",
    params := [], body := none, extractKey := some "data" }

/-- `get_single_time_entry(team_id, time_entry_id)`:
`GET /team/{team_id}/time_entries/{time_entry_id}`. -/
def ClickUpAPI.get_single_time_entry (team_id time_entry_id : Json) : ClientCall :=
  { verb := .get, path := "/team/" ++ pyStr team_id ++ "/time_entries/" ++ pyStr time_entry_id,
    params := [], body := none, extractKey := none }

/-- `get_running_time_entry(team_id)`:
`GET /team/{team_id}/time_entries/current`. -/
def ClickUpAPI.get_running_time_entry (team_id : Json) : ClientCall :=
  { verb := .get, path := "/team/" ++ pyStr team_id ++ "/time_entries/current", params := [],
    body := none, extractKey := none }

/-- `update_time_entry(team_id, timer_id, **kwargs)`:
`PUT /team/{team_id}/time_entries/{timer_id}` with the keyword mapping as
body. -/
def ClickUpAPI.update_time_entry (team_id timer_id : Json) (kwargs : Dict) : ClientCall :=
  { verb := .put, path := "/team/" ++ pyStr team_id ++ "/time_entries/" ++ pyStr timer_id,
    params := [], body := some (.obj kwargs), extractKey := none }

/-- `delete_time_entry(team_id, time_entry_id)`:
`DELETE /team/{team_id}/time_entries/{time_entry_id}`. -/
def ClickUpAPI.delete_time_entry (team_id time_entry_id : Json) : ClientCall :=
  { verb := .delete, path := "/team/" ++ pyStr team_id ++ "/time_entries/" ++ pyStr time_entry_id,
    params := [], body := none, extractKey := none }

/-- `get_time_entry_tags(team_id)`: `GET /team/{team_id}/time_entries/tags`. -/
def ClickUpAPI.get_time_entry_tags (team_id : Json) : ClientCall :=
  { verb := .get, path := "/team/" ++ pyStr team_id ++ "/time_entries/tags", params := [],
    body := none, extractKey := none }

/-- `add_tags_to_time_entries(team_id, time_entry_ids, tags)`:
`POST /team/{team_id}/time_entries/tags`, JSON body with both fields. -/
def ClickUpAPI.add_tags_to_time_entries (team_id time_entry_ids tags : Json) : ClientCall :=
  { verb := .post, path := "/team/" ++ pyStr team_id ++ "/time_entries/tags", params := [],
    body := some (.obj [("time_entry_ids", time_entry_ids), ("tags", tags)]), extractKey := none }

/-- `remove_tags_from_time_entries(team_id, time_entry_ids, tags)`:
`DELETE /team/{team_id}/time_entries/tags` — the data is sent as query
parameters (`params=data`), not as a JSON body. -/
def ClickUpAPI.remove_tags_from_time_entries (team_id time_entry_ids tags : Json) : ClientCall :=
  { verb := .delete, path := "/team/" ++ pyStr team_id ++ "/time_entries/tags",
    params := [("time_entry_ids", time_entry_ids), ("tags", tags)], body := none,
    extractKey := none }

/-- `update_time_entry_tag(team_id, name, new_name, tag_bg, tag_fg)`:
`PUT /team/{team_id}/time_entries/tags`, body with the four fields. -/
def ClickUpAPI.update_time_entry_tag (team_id nameArg new_name tag_bg tag_fg : Json) : ClientCall :=
  { verb := .put, path := "/team/" ++ pyStr team_id ++ "/time_entries/tags", params := [],
    body := some (.obj [("name", nameArg), ("new_name", new_name), ("tag_bg", tag_bg),
      ("tag_fg", tag_fg)]), extractKey := none }

/-- `edit_guest(team_id, guest_id, **kwargs)`:
`PUT /team/{team_id}/guest/{guest_id}` with the keyword mapping as body. -/
def ClickUpAPI.edit_guest (team_id guest_id : Json) (kwargs : Dict) : ClientCall :=
  { verb := .put, path := "/team/" ++ pyStr team_id ++ "/guest/" ++ pyStr guest_id, params := [],
    body := some (.obj kwargs), extractKey := none }

/-- `remove_guest(team_id, guest_id)`: `DELETE /team/{team_id}/guest/{guest_id}`. -/
def ClickUpAPI.remove_guest (team_id guest_id : Json) : ClientCall :=
  { verb := .delete, path := "/team/" ++ pyStr team_id ++ "/guest/" ++ pyStr guest_id,
    params := [], body := none, extractKey := none }

/-- `get_guest(team_id, guest_id)`: `GET /team/{team_id}/guest/{guest_id}`. -/
def ClickUpAPI.get_guest (team_id guest_id : Json) : ClientCall :=
  { verb := .get, path := "/team/" ++ pyStr team_id ++ "/guest/" ++ pyStr guest_id,
    params := [], body := none, extractKey := none }

/-- `add_guest_to_task(task_id, guest_id, permission_level)`:
`POST /task/{task_id}/guest/{guest_id}`, body `{"permission_level": ...}`. -/
def ClickUpAPI.add_guest_to_task (task_id guest_id permission_level : Json) : ClientCall :=
  { verb := .post, path := "/task/" ++ pyStr task_id ++ "/guest/" ++ pyStr guest_id, params := [],
    body := some (.obj [("permission_level", permission_level)]), extractKey := none }

/-- `remove_guest_from_task(task_id, guest_id)`:
`DELETE /task/{task_id}/guest/{guest_id}`. -/
def ClickUpAPI.remove_guest_from_task (task_id guest_id : Json) : ClientCall :=
  { verb := .delete, path := "/task/" ++ pyStr task_id ++ "/guest/" ++ pyStr guest_id,
    params := [], body := none, extractKey := none }

/-- `add_guest_to_list(list_id, guest_id, permission_level)`:
`POST /list/{list_id}/guest/{guest_id}`, body `{"permission_level": ...}`. -/
def ClickUpAPI.add_guest_to_list (list_id guest_id permission_level : Json) : ClientCall :=
  { verb := .post, path := "/list/" ++ pyStr list_id ++ "/guest/" ++ pyStr guest_id, params := [],
    body := some (.obj [("permission_level", permission_level)]), extractKey := none }

/-- `remove_guest_from_list(list_id, guest_id)`:
`DELETE /list/{list_id}/guest/{guest_id}`. -/
def ClickUpAPI.remove_guest_from_list (list_id guest_id : Json) : ClientCall :=
  { verb := .delete, path := "/list/" ++ pyStr list_id ++ "/guest/" ++ pyStr guest_id,
    params := [], body := none, extractKey := none }

/-- `add_guest_to_folder(folder_id, guest_id, permission_level)`:
`POST /folder/{folder_id}/guest/{guest_id}`, body `{"permission_level": ...}`. -/
def ClickUpAPI.add_guest_to_folder (folder_id guest_id permission_level : Json) : ClientCall :=
  { verb := .post, path := "/folder/" ++ pyStr folder_id ++ "/guest/" ++ pyStr guest_id,
    params := [], body := some (.obj [("permission_level", permission_level)]),
    extractKey := none }

/-- `remove_guest_from_folder(folder_id, guest_id)`:
`DELETE /folder/{folder_id}/guest/{guest_id}`. -/
def ClickUpAPI.remove_guest_from_folder (folder_id guest_id : Json) : ClientCall :=
  { verb := .delete, path := "/folder/" ++ pyStr folder_id ++ "/guest/" ++ pyStr guest_id,
    params := [], body := none, extractKey := none }

/-- `create_team_view(team_id, **kwargs)`: `POST /team/{team_id}/view` with
the keyword mapping as body. -/
def ClickUpAPI.create_team_view (team_id : Json) (kwargs : Dict) : ClientCall :=
  { verb := .post, path := "/team/" ++ pyStr team_id ++ "/view", params := [],
    body := some (.obj kwargs), extractKey := none }

/-- `create_team_group(team_id, name, member_ids)`:
`POST /team/{team_id}/group`, body with both fields. -/
def ClickUpAPI.create_team_group (team_id nameArg member_ids : Json) : ClientCall :=
  { verb := .post, path := "/team/" ++ pyStr team_id ++ "/group", params := [],
    body := some (.obj [("name", nameArg), ("member_ids", member_ids)]), extractKey := none }

/-- `get_team_groups(team_id)`: `GET /team/{team_id}/group`. -/
def ClickUpAPI.get_team_groups (team_id : Json) : ClientCall :=
  { verb := .get, path := "/team/" ++ pyStr team_id ++ "/group", params := [], body := none,
    extractKey := none }

/-- `update_team_group(group_id, **kwargs)`: `PUT /group/{group_id}` with
the keyword mapping as body. -/
def ClickUpAPI.update_team_group (group_id : Json) (kwargs : Dict) : ClientCall :=
  { verb := .put, path := "/group/" ++ pyStr group_id, params := [],
    body := some (.obj kwargs), extractKey := none }

/-- `delete_team_group(group_id)`: `DELETE /group/{group_id}`. -/
def ClickUpAPI.delete_team_group (group_id : Json) : ClientCall :=
  { verb := .delete, path := "/group/" ++ pyStr group_id, params := [], body := none,
    extractKey := none }

/-- `get_workspace_seats(workspace_id)`: `GET /team/{workspace_id}/seats`. -/
def ClickUpAPI.get_workspace_seats (workspace_id : Json) : ClientCall :=
  { verb := .get, path := "/team/" ++ pyStr workspace_id ++ "/seats", params := [], body := none,
    extractKey := none }

/-- `invite_user(team_id, email, **kwargs)`: `POST /team/{team_id}/user`,
body `{"email": ..., **kwargs}`. -/
def ClickUpAPI.invite_user (team_id email : Json) (kwargs : Dict) : ClientCall :=
  { verb := .post, path := "/team/" ++ pyStr team_id ++ "/user", params := [],
    body := some (.obj (dictUpdate [("email", email)] kwargs)), extractKey := none }

/-- `edit_user(team_id, user_id, **kwargs)`:
`PUT /team/{team_id}/user/{user_id}` with the keyword mapping as body. -/
def ClickUpAPI.edit_user (team_id user_id : Json) (kwargs : Dict) : ClientCall :=
  { verb := .put, path := "/team/" ++ pyStr team_id ++ "/user/" ++ pyStr user_id, params := [],
    body := some (.obj kwargs), extractKey := none }

/-- `remove_user(team_id, user_id)`: `DELETE /team/{team_id}/user/{user_id}`. -/
def ClickUpAPI.remove_user (team_id user_id : Json) : ClientCall :=
  { verb := .delete, path := "/team/" ++ pyStr team_id ++ "/user/" ++ pyStr user_id,
    params := [], body := none, extractKey := none }

/-- `get_user(team_id, user_id)`: `GET /team/{team_id}/user/{user_id}`. -/
def ClickUpAPI.get_user (team_id user_id : Json) : ClientCall :=
  { verb := .get, path := "/team/" ++ pyStr team_id ++ "/user/" ++ pyStr user_id, params := [],
    body := none, extractKey := none }

/-- `create_webhook(team_id, endpoint, events, **kwargs)`:
`POST /team/{team_id}/webhook`, body `{"endpoint": ..., "events": ..., **kwargs}`. -/
def ClickUpAPI.create_webhook (team_id endpoint events : Json) (kwargs : Dict) : ClientCall :=
  { verb := .post, path := "/team/" ++ pyStr team_id ++ "/webhook", params := [],
    body := some (.obj (dictUpdate [("endpoint", endpoint), ("events", events)] kwargs)),
    extractKey := none }

/-- `get_webhooks(team_id)`: `GET /team/{team_id}/webhook`. -/
def ClickUpAPI.get_webhooks (team_id : Json) : ClientCall :=
  { verb := .get, path := "/team/" ++ pyStr team_id ++ "/webhook", params := [], body := none,
    extractKey := none }

/-- `update_webhook(webhook_id, **kwargs)`: `PUT /webhook/{webhook_id}`
with the keyword mapping as body. -/
def ClickUpAPI.update_webhook (webhook_id : Json) (kwargs : Dict) : ClientCall :=
  { verb := .put, path := "/webhook/" ++ pyStr webhook_id, params := [],
    body := some (.obj kwargs), extractKey := none }

/-- `delete_webhook(webhook_id)`: `DELETE /webhook/{webhook_id}`. -/
def ClickUpAPI.delete_webhook (webhook_id : Json) : ClientCall :=
  { verb := .delete, path := "/webhook/" ++ pyStr webhook_id, params := [], body := none,
    extractKey := none }

/-- What one branch of `handle_call_tool` decides to do after inspecting
its arguments: raise before any request is issued, or issue the one
request of its `ClickUpAPI` method and render the decoded result into the
text of the single `TextContent` block the branch returns. -/
inductive BranchSpec where
  | failEarly (e : CallError)
  | call (c : ClientCall) (render : Json → Except CallError String)

/-- Execute a branch against a session and the remote's answer.  The first
component is the trace of HTTP requests the invocation issued. -/
def runBranch (st : ClickUpAPI) (b : BranchSpec) (resp : HttpResponse) :
    List HttpRequest × Except CallError (List Content) :=
  match b with
  | .failEarly e => ([], .error e)
  | .call c render =>
    ([toRequest st c],
      match c.run resp with
      | .error e => .error e
      | .ok j =>
        match render j with
        | .error e => .error e
        | .ok t => .ok [TextContent t])

/-- `if not arguments: raise ValueError("Missing arguments")` — the guard
at the top of every branch that declares arguments. -/
def guardArgs (arguments : Option Dict) (next : Dict → BranchSpec) : BranchSpec :=
  match arguments with
  | none => .failEarly .missingArguments
  | some d => if dictIsEmpty d then .failEarly .missingArguments else next d

/-- `arguments["k"]` inside a branch: continue with the value or raise
`KeyError`. -/
def requireArg (args : Dict) (k : String) (next : Json → BranchSpec) : BranchSpec :=
  match dictGetItem args k with
  | .error e => .failEarly e
  | .ok v => next v

/-- `arguments.pop("k")`: continue with the value and the remaining
mapping, or raise `KeyError`. -/
def popArg (args : Dict) (k : String) (next : Json → Dict → BranchSpec) : BranchSpec :=
  match dictGetItem args k with
  | .error e => .failEarly e
  | .ok v => next v (dictErase args k)

/-- The repeated comprehension line
`f"- {x.get('name', 'Unknown')} (ID: {x.get('id', 'Unknown')})"`. -/
def lineNameId (x : Json) : Except CallError String := do
  let n ← pyGet x "name" (.str "Unknown")
  let i ← pyGet x "id" (.str "Unknown")
  pure ("- " ++ pyStr n ++ " (ID: " ++ pyStr i ++ ")")

/-- The repeated comprehension line
`f"- {x.get('username', 'Unknown')} (ID: {x.get('id', 'Unknown')})"`. -/
def lineUsernameId (x : Json) : Except CallError String := do
  let u ← pyGet x "username" (.str "Unknown")
  let i ← pyGet x "id" (.str "Unknown")
  pure ("- " ++ pyStr u ++ " (ID: " ++ pyStr i ++ ")")

/-- `header + "\n".join([line(x) for x in coll])` as used by the listing
branches (the header already carries its trailing newline). -/
def joinLines (header : String) (line : Json → Except CallError String) (coll : Json) :
    Except CallError String := do
  let xs ← pyIter coll
  let ls ← xs.mapM line
  pure (header ++ String.intercalate "\n" ls)

/-- The branches of `handle_call_tool`, keyed by the string literal each
`if`/`elif` compares the tool name against, in the order of the source's
branch chain. -/
def branchHandlers : List (String × (Option Dict → BranchSpec)) := [
  ("get-authorized-user", fun _ =>
    .call ClickUpAPI.get_authorized_user (fun user => do
      let u ← pyGetItem user "username"
      let i ← pyGetItem user "id"
      pure ("Authorized user: " ++ pyStr u ++ " (ID: " ++ pyStr i ++ ")"))),
  ("create-space", fun arguments =>
    guardArgs arguments fun args =>
    requireArg args "team_id" fun team_id =>
    requireArg args "name" fun nameArg =>
    .call (ClickUpAPI.create_space team_id nameArg
        [("multiple_assignees", dictGet args "multiple_assignees" .null),
         ("features", dictGet args "features" (.obj []))])
      (fun space => do
        let n ← pyGetItem space "name"
        let i ← pyGetItem space "id"
        pure ("Created space: " ++ pyStr n ++ " (ID: " ++ pyStr i ++ ")"))),
  ("create-folder", fun arguments =>
    guardArgs arguments fun args =>
    requireArg args "space_id" fun space_id =>
    requireArg args "name" fun nameArg =>
    .call (ClickUpAPI.create_folder space_id nameArg [])
      (fun folder => do
        let n ← pyGetItem folder "name"
        let i ← pyGetItem folder "id"
        pure ("Created folder: " ++ pyStr n ++ " (ID: " ++ pyStr i ++ ")"))),
  ("create-folderless-list", fun arguments =>
    guardArgs arguments fun args =>
    requireArg args "space_id" fun space_id =>
    requireArg args "name" fun nameArg =>
    .call (ClickUpAPI.create_folderless_list space_id nameArg
        [("content", dictGet args "content" .null),
         ("due_date", dictGet args "due_date" .null),
         ("priority", dictGet args "priority" .null),
         ("assignee", dictGet args "assignee" .null),
         ("status", dictGet args "status" .null)])
      (fun lst => do
        let n ← pyGetItem lst "name"
        let i ← pyGetItem lst "id"
        pure ("Created list: " ++ pyStr n ++ " (ID: " ++ pyStr i ++ ")"))),
  ("create-task", fun arguments =>
    guardArgs arguments fun args =>
    requireArg args "list_id" fun list_id =>
    requireArg args "name" fun nameArg =>
    .call (ClickUpAPI.create_task list_id nameArg
        [("description", dictGet args "description" .null),
         ("assignees", dictGet args "assignees" (.arr [])),
         ("tags", dictGet args "tags" (.arr [])),
         ("status", dictGet args "status" .null),
         ("priority", dictGet args "priority" .null),
         ("due_date", dictGet args "due_date" .null),
         ("time_estimate", dictGet args "time_estimate" .null),
         ("notify_all", dictGet args "notify_all" (.bool false))])
      (fun task => do
        let n ← pyGetItem task "name"
        let i ← pyGetItem task "id"
        pure ("Created task: " ++ pyStr n ++ " (ID: " ++ pyStr i ++ ")"))),
  ("create-task-comment", fun arguments =>
    guardArgs arguments fun args =>
    requireArg args "task_id" fun task_id =>
    requireArg args "comment_text" fun comment_text =>
    .call (ClickUpAPI.create_task_comment task_id comment_text
        [("assignee", dictGet args "assignee" .null),
         ("notify_all", dictGet args "notify_all" (.bool false))])
      (fun comment => do
        let i ← pyGetItem comment "id"
        pure ("Created comment: " ++ pyStr i))),
  ("create-checklist", fun arguments =>
    guardArgs arguments fun args =>
    requireArg args "task_id" fun task_id =>
    requireArg args "name" fun nameArg =>
    .call (ClickUpAPI.create_checklist task_id nameArg)
      (fun checklist => do
        let n ← pyGetItem checklist "name"
        let i ← pyGetItem checklist "id"
        pure ("Created checklist: " ++ pyStr n ++ " (ID: " ++ pyStr i ++ ")"))),
  ("get-custom-fields", fun arguments =>
    guardArgs arguments fun args =>
    requireArg args "list_id" fun list_id =>
    .call (ClickUpAPI.get_accessible_custom_fields list_id)
      (fun fields => do
        let xs ← pyIter fields
        let ls ← xs.mapM (fun field => do
          let n ← pyGetItem field "name"
          let t ← pyGetItem field "type"
          let i ← pyGetItem field "id"
          pure ("- " ++ pyStr n ++ " (Type: " ++ pyStr t ++ ", ID: " ++ pyStr i ++ ")"))
        pure ("Custom fields:\n" ++ String.intercalate "\n" ls))),
  ("start-time-entry", fun arguments =>
    guardArgs arguments fun args =>
    requireArg args "task_id" fun task_id =>
    .call (ClickUpAPI.start_time_entry task_id
        [("description", dictGet args "description" .null),
         ("billable", dictGet args "billable" .null)])
      (fun entry => do
        let i ← pyGetItem entry "id"
        pure ("Started time entry: " ++ pyStr i))),
  ("create-goal", fun arguments =>
    guardArgs arguments fun args =>
    requireArg args "team_id" fun team_id =>
    requireArg args "name" fun nameArg =>
    .call (ClickUpAPI.create_goal team_id nameArg
        [("due_date", dictGet args "due_date" .null),
         ("description", dictGet args "description" .null),
         ("multiple_owners", dictGet args "multiple_owners" .null),
         ("owners", dictGet args "owners" (.arr [])),
         ("color", dictGet args "color" .null)])
      (fun goal => do
        let n ← pyGetItem goal "name"
        let i ← pyGetItem goal "id"
        pure ("Created goal: " ++ pyStr n ++ " (ID: " ++ pyStr i ++ ")"))),
  ("create-space-tag", fun arguments =>
    guardArgs arguments fun args =>
    requireArg args "space_id" fun space_id =>
    requireArg args "name" fun nameArg =>
    .call (ClickUpAPI.create_space_tag space_id nameArg
        [("tag_fg", dictGet args "tag_fg" .null),
         ("tag_bg", dictGet args "tag_bg" .null)])
      (fun tag => do
        let n ← pyGetItem tag "name"
        pure ("Created tag: " ++ pyStr n))),
  ("add-task-dependency", fun arguments =>
    guardArgs arguments fun args =>
    requireArg args "task_id" fun task_id =>
    requireArg args "depends_on" fun depends_on =>
    .call (ClickUpAPI.add_task_dependency task_id depends_on
        (dictGet args "dependency_type" (.str "waiting_on")))
      (fun dependency => do
        let i ← pyGetItem dependency "id"
        pure ("Added dependency: " ++ pyStr i))),
  ("get-task-members", fun arguments =>
    guardArgs arguments fun args =>
    requireArg args "task_id" fun task_id =>
    .call (ClickUpAPI.get_task_members task_id) (joinLines "Task members:\n" lineUsernameId)),
  ("invite-guest", fun arguments =>
    guardArgs arguments fun args =>
    requireArg args "team_id" fun team_id =>
    requireArg args "email" fun email =>
    .call (ClickUpAPI.invite_guest team_id email
        [("can_edit_tags", dictGet args "can_edit_tags" .null),
         ("can_see_time_estimated", dictGet args "can_see_time_estimated" .null),
         ("can_see_time_spent", dictGet args "can_see_time_spent" .null)])
      (fun guest => do
        let e ← pyGetItem guest "email"
        pure ("Invited guest: " ++ pyStr e))),
  ("get-teams", fun _ =>
    .call ClickUpAPI.get_teams (joinLines "Available teams:\n" lineNameId)),
  ("get-spaces", fun arguments =>
    guardArgs arguments fun args =>
    requireArg args "team_id" fun team_id =>
    .call (ClickUpAPI.get_spaces team_id) (joinLines "Available spaces:\n" lineNameId)),
  ("get-lists", fun arguments =>
    guardArgs arguments fun args =>
    requireArg args "space_id" fun space_id =>
    .call (ClickUpAPI.get_lists space_id) (joinLines "Available lists:\n" lineNameId)),
  ("get-tasks", fun arguments =>
    guardArgs arguments fun args =>
    requireArg args "list_id" fun list_id =>
    .call (ClickUpAPI.get_tasks list_id (args.filter (fun p => p.1 != "list_id")))
      (joinLines "Tasks:\n" lineNameId)),
  ("update-task", fun arguments =>
    guardArgs arguments fun args =>
    popArg args "task_id" fun task_id rest =>
    .call (ClickUpAPI.update_task task_id rest)
      (fun task => do
        let n ← pyGet task "name" (.str "Unknown")
        let i ← pyGet task "id" (.str "Unknown")
        pure ("Updated task: " ++ pyStr n ++ " (ID: " ++ pyStr i ++ ")"))),
  ("get-task-watchers", fun arguments =>
    guardArgs arguments fun args =>
    requireArg args "task_id" fun task_id =>
    .call (ClickUpAPI.get_task_watchers task_id) (joinLines "Task watchers:\n" lineUsernameId)),
  ("add-task-watcher", fun arguments =>
    guardArgs arguments fun args =>
    requireArg args "task_id" fun task_id =>
    requireArg args "watcher_id" fun watcher_id =>
    .call (ClickUpAPI.add_task_watcher task_id watcher_id)
      (fun _ => pure "Added watcher to task")),
  ("get-task-dependencies", fun arguments =>
    guardArgs arguments fun args =>
    requireArg args "task_id" fun task_id =>
    .call (ClickUpAPI.get_task_dependencies task_id)
      (joinLines "Task dependencies:\n" (fun dep => do
        let t ← pyGet dep "task_id" (.str "Unknown")
        let ty ← pyGet dep "type" (.str "Unknown")
        pure ("- " ++ pyStr t ++ " (" ++ pyStr ty ++ ")")))),
  ("remove-task-dependency", fun arguments =>
    guardArgs arguments fun args =>
    requireArg args "task_id" fun task_id =>
    requireArg args "dependency_id" fun dependency_id =>
    .call (ClickUpAPI.remove_task_dependency task_id dependency_id)
      (fun _ => pure "Removed task dependency")),
  ("get-comments", fun arguments =>
    guardArgs arguments fun args =>
    requireArg args "task_id" fun task_id =>
    .call (ClickUpAPI.get_comments task_id)
      (joinLines "Task comments:\n" (fun comment => do
        let c ← pyGet comment "comment_text" (.str "No text")
        let i ← pyGet comment "id" (.str "Unknown")
        pure ("- " ++ pyStr c ++ " (ID: " ++ pyStr i ++ ")")))),
  ("update-comment", fun arguments =>
    guardArgs arguments fun args =>
    popArg args "comment_id" fun comment_id rest =>
    popArg rest "comment_text" fun comment_text rest2 =>
    .call (ClickUpAPI.update_comment comment_id comment_text rest2)
      (fun _ => pure "Updated comment")),
  ("delete-comment", fun arguments =>
    guardArgs arguments fun args =>
    requireArg args "comment_id" fun comment_id =>
    .call (ClickUpAPI.delete_comment comment_id) (fun _ => pure "Deleted comment")),
  ("edit-checklist", fun arguments =>
    guardArgs arguments fun args =>
    requireArg args "checklist_id" fun checklist_id =>
    requireArg args "name" fun nameArg =>
    .call (ClickUpAPI.edit_checklist checklist_id nameArg)
      (fun checklist => do
        let n ← pyGet checklist "name" (.str "Unknown")
        let i ← pyGet checklist "id" (.str "Unknown")
        pure ("Updated checklist: " ++ pyStr n ++ " (ID: " ++ pyStr i ++ ")"))),
  ("delete-checklist", fun arguments =>
    guardArgs arguments fun args =>
    requireArg args "checklist_id" fun checklist_id =>
    .call (ClickUpAPI.delete_checklist checklist_id) (fun _ => pure "Deleted checklist")),
  ("create-checklist-item", fun arguments =>
    guardArgs arguments fun args =>
    popArg args "checklist_id" fun checklist_id rest =>
    popArg rest "name" fun nameArg rest2 =>
    .call (ClickUpAPI.create_checklist_item checklist_id nameArg rest2)
      (fun item => do
        let n ← pyGet item "name" (.str "Unknown")
        let i ← pyGet item "id" (.str "Unknown")
        pure ("Created checklist item: " ++ pyStr n ++ " (ID: " ++ pyStr i ++ ")"))),
  ("stop-time-entry", fun arguments =>
    guardArgs arguments fun args =>
    requireArg args "task_id" fun task_id =>
    .call (ClickUpAPI.stop_time_entry task_id [])
      (fun entry => do
        let i ← pyGet entry "id" (.str "Unknown")
        pure ("Stopped time entry: " ++ pyStr i))),
  ("get-time-entries", fun arguments =>
    guardArgs arguments fun args =>
    popArg args "team_id" fun team_id rest =>
    .call (ClickUpAPI.get_time_entries team_id
        (dictGet rest "start_date" .null) (dictGet rest "end_date" .null)
        (dictErase (dictErase rest "start_date") "end_date"))
      (joinLines "Time entries:\n" (fun entry => do
        let d ← pyGet entry "description" (.str "No description")
        let dur ← pyGet entry "duration" (.num 0)
        pure ("- " ++ pyStr d ++ " (" ++ pyStr dur ++ " seconds)")))),
  ("get-time-entry-history", fun arguments =>
    guardArgs arguments fun args =>
    requireArg args "team_id" fun team_id =>
    requireArg args "timer_id" fun timer_id =>
    .call (ClickUpAPI.get_time_entry_history team_id timer_id)
      (joinLines "Time entry history:\n" (fun entry => do
        let a ← pyGet entry "action" (.str "Unknown")
        let d ← pyGet entry "date" (.str "Unknown")
        pure ("- " ++ pyStr a ++ " at " ++ pyStr d)))),
  ("get-single-time-entry", fun arguments =>
    guardArgs arguments fun args =>
    requireArg args "team_id" fun team_id =>
    requireArg args "time_entry_id" fun time_entry_id =>
    .call (ClickUpAPI.get_single_time_entry team_id time_entry_id)
      (fun entry => do
        let d ← pyGet entry "description" (.str "No description")
        let dur ← pyGet entry "duration" (.num 0)
        pure ("Time entry: " ++ pyStr d ++ " (" ++ pyStr dur ++ " seconds)"))),
  ("get-running-time-entry", fun arguments =>
    guardArgs arguments fun args =>
    requireArg args "team_id" fun team_id =>
    .call (ClickUpAPI.get_running_time_entry team_id)
      (fun entry =>
        if pyTruthy entry then do
          let d ← pyGet entry "description" (.str "No description")
          let dur ← pyGet entry "duration" (.num 0)
          pure ("Running time entry: " ++ pyStr d ++ " (" ++ pyStr dur ++ " seconds)")
        else pure "No running time entry found")),
  ("update-time-entry", fun arguments =>
    guardArgs arguments fun args =>
    popArg args "team_id" fun team_id rest =>
    popArg rest "timer_id" fun timer_id rest2 =>
    .call (ClickUpAPI.update_time_entry team_id timer_id rest2)
      (fun entry => do
        let d ← pyGet entry "description" (.str "No description")
        let dur ← pyGet entry "duration" (.num 0)
        pure ("Updated time entry: " ++ pyStr d ++ " (" ++ pyStr dur ++ " seconds)"))),
  ("delete-time-entry", fun arguments =>
    guardArgs arguments fun args =>
    requireArg args "team_id" fun team_id =>
    requireArg args "time_entry_id" fun time_entry_id =>
    .call (ClickUpAPI.delete_time_entry team_id time_entry_id)
      (fun _ => pure "Deleted time entry")),
  ("get-time-entry-tags", fun arguments =>
    guardArgs arguments fun args =>
    requireArg args "team_id" fun team_id =>
    .call (ClickUpAPI.get_time_entry_tags team_id)
      (joinLines "Time entry tags:\n" (fun tag => pure ("- " ++ pyStr tag)))),
  ("add-tags-to-time-entries", fun arguments =>
    guardArgs arguments fun args =>
    requireArg args "team_id" fun team_id =>
    requireArg args "time_entry_ids" fun time_entry_ids =>
    requireArg args "tags" fun tags =>
    .call (ClickUpAPI.add_tags_to_time_entries team_id time_entry_ids tags)
      (fun _ => pure "Added tags to time entries")),
  ("remove-tags-from-time-entries", fun arguments =>
    guardArgs arguments fun args =>
    requireArg args "team_id" fun team_id =>
    requireArg args "time_entry_ids" fun time_entry_ids =>
    requireArg args "tags" fun tags =>
    .call (ClickUpAPI.remove_tags_from_time_entries team_id time_entry_ids tags)
      (fun _ => pure "Removed tags from time entries")),
  ("update-time-entry-tag", fun arguments =>
    guardArgs arguments fun args =>
    requireArg args "team_id" fun team_id =>
    requireArg args "name" fun nameArg =>
    requireArg args "new_name" fun new_name =>
    requireArg args "tag_bg" fun tag_bg =>
    requireArg args "tag_fg" fun tag_fg =>
    .call (ClickUpAPI.update_time_entry_tag team_id nameArg new_name tag_bg tag_fg)
      (fun _ => pure "Updated time entry tag")),
  ("edit-guest", fun arguments =>
    guardArgs arguments fun args =>
    popArg args "team_id" fun team_id rest =>
    popArg rest "guest_id" fun guest_id rest2 =>
    .call (ClickUpAPI.edit_guest team_id guest_id rest2)
      (fun _ => pure "Updated guest permissions")),
  ("remove-guest", fun arguments =>
    guardArgs arguments fun args =>
    requireArg args "team_id" fun team_id =>
    requireArg args "guest_id" fun guest_id =>
    .call (ClickUpAPI.remove_guest team_id guest_id)
      (fun _ => pure "Removed guest from workspace")),
  ("get-guest", fun arguments =>
    guardArgs arguments fun args =>
    requireArg args "team_id" fun team_id =>
    requireArg args "guest_id" fun guest_id =>
    .call (ClickUpAPI.get_guest team_id guest_id)
      (fun guest => do
        let e ← pyGet guest "email" (.str "Unknown")
        let i ← pyGet guest "id" (.str "Unknown")
        pure ("Guest: " ++ pyStr e ++ " (ID: " ++ pyStr i ++ ")"))),
  ("add-guest-to-task", fun arguments =>
    guardArgs arguments fun args =>
    requireArg args "task_id" fun task_id =>
    requireArg args "guest_id" fun guest_id =>
    requireArg args "permission_level" fun permission_level =>
    .call (ClickUpAPI.add_guest_to_task task_id guest_id permission_level)
      (fun _ => pure "Added guest to task")),
  ("remove-guest-from-task", fun arguments =>
    guardArgs arguments fun args =>
    requireArg args "task_id" fun task_id =>
    requireArg args "guest_id" fun guest_id =>
    .call (ClickUpAPI.remove_guest_from_task task_id guest_id)
      (fun _ => pure "Removed guest from task")),
  ("add-guest-to-list", fun arguments =>
    guardArgs arguments fun args =>
    requireArg args "list_id" fun list_id =>
    requireArg args "guest_id" fun guest_id =>
    requireArg args "permission_level" fun permission_level =>
    .call (ClickUpAPI.add_guest_to_list list_id guest_id permission_level)
      (fun _ => pure "Added guest to list")),
  ("remove-guest-from-list", fun arguments =>
    guardArgs arguments fun args =>
    requireArg args "list_id" fun list_id =>
    requireArg args "guest_id" fun guest_id =>
    .call (ClickUpAPI.remove_guest_from_list list_id guest_id)
      (fun _ => pure "Removed guest from list")),
  ("add-guest-to-folder", fun arguments =>
    guardArgs arguments fun args =>
    requireArg args "folder_id" fun folder_id =>
    requireArg args "guest_id" fun guest_id =>
    requireArg args "permission_level" fun permission_level =>
    .call (ClickUpAPI.add_guest_to_folder folder_id guest_id permission_level)
      (fun _ => pure "Added guest to folder")),
  ("remove-guest-from-folder", fun arguments =>
    guardArgs arguments fun args =>
    requireArg args "folder_id" fun folder_id =>
    requireArg args "guest_id" fun guest_id =>
    .call (ClickUpAPI.remove_guest_from_folder folder_id guest_id)
      (fun _ => pure "Removed guest from folder")),
  ("create-team-view", fun arguments =>
    guardArgs arguments fun args =>
    popArg args "team_id" fun team_id rest =>
    .call (ClickUpAPI.create_team_view team_id rest)
      (fun view => do
        let n ← pyGet view "name" (.str "Unknown")
        let i ← pyGet view "id" (.str "Unknown")
        pure ("Created team view: " ++ pyStr n ++ " (ID: " ++ pyStr i ++ ")"))),
  ("create-team-group", fun arguments =>
    guardArgs arguments fun args =>
    requireArg args "team_id" fun team_id =>
    requireArg args "name" fun nameArg =>
    requireArg args "member_ids" fun member_ids =>
    .call (ClickUpAPI.create_team_group team_id nameArg member_ids)
      (fun group => do
        let n ← pyGet group "name" (.str "Unknown")
        let i ← pyGet group "id" (.str "Unknown")
        pure ("Created team group: " ++ pyStr n ++ " (ID: " ++ pyStr i ++ ")"))),
  ("get-team-groups", fun arguments =>
    guardArgs arguments fun args =>
    requireArg args "team_id" fun team_id =>
    .call (ClickUpAPI.get_team_groups team_id)
      (fun groups => do
        let gs ← pyGet groups "groups" (.arr [])
        joinLines "Team groups:\n" lineNameId gs)),
  ("update-team-group", fun arguments =>
    guardArgs arguments fun args =>
    popArg args "group_id" fun group_id rest =>
    .call (ClickUpAPI.update_team_group group_id rest)
      (fun group => do
        let n ← pyGet group "name" (.str "Unknown")
        let i ← pyGet group "id" (.str "Unknown")
        pure ("Updated team group: " ++ pyStr n ++ " (ID: " ++ pyStr i ++ ")"))),
  ("delete-team-group", fun arguments =>
    guardArgs arguments fun args =>
    requireArg args "group_id" fun group_id =>
    .call (ClickUpAPI.delete_team_group group_id) (fun _ => pure "Deleted team group")),
  ("get-workspace-seats", fun arguments =>
    guardArgs arguments fun args =>
    requireArg args "workspace_id" fun workspace_id =>
    .call (ClickUpAPI.get_workspace_seats workspace_id)
      (fun seats => pure ("Workspace seats: " ++ pyStr seats))),
  ("get-task-templates", fun arguments =>
    guardArgs arguments fun args =>
    requireArg args "team_id" fun team_id =>
    .call (ClickUpAPI.get_task_templates team_id (dictGet args "page" (.num 0)))
      (joinLines "Task templates:\n" lineNameId)),
  ("create-task-from-template", fun arguments =>
    guardArgs arguments fun args =>
    requireArg args "list_id" fun list_id =>
    requireArg args "template_id" fun template_id =>
    requireArg args "name" fun nameArg =>
    .call (ClickUpAPI.create_task_from_template list_id template_id nameArg)
      (fun task => do
        let n ← pyGet task "name" (.str "Unknown")
        let i ← pyGet task "id" (.str "Unknown")
        pure ("Created task from template: " ++ pyStr n ++ " (ID: " ++ pyStr i ++ ")"))),
  ("invite-user", fun arguments =>
    guardArgs arguments fun args =>
    popArg args "team_id" fun team_id rest =>
    popArg rest "email" fun email rest2 =>
    .call (ClickUpAPI.invite_user team_id email rest2)
      (fun user => do
        let e ← pyGet user "email" (.str "Unknown")
        pure ("Invited user: " ++ pyStr e))),
  ("edit-user", fun arguments =>
    guardArgs arguments fun args =>
    popArg args "team_id" fun team_id rest =>
    popArg rest "user_id" fun user_id rest2 =>
    .call (ClickUpAPI.edit_user team_id user_id rest2)
      (fun user => do
        let u ← pyGet user "username" (.str "Unknown")
        let i ← pyGet user "id" (.str "Unknown")
        pure ("Updated user: " ++ pyStr u ++ " (ID: " ++ pyStr i ++ ")"))),
  ("remove-user", fun arguments =>
    guardArgs arguments fun args =>
    requireArg args "team_id" fun team_id =>
    requireArg args "user_id" fun user_id =>
    .call (ClickUpAPI.remove_user team_id user_id)
      (fun _ => pure "Removed user from workspace")),
  ("get-user", fun arguments =>
    guardArgs arguments fun args =>
    requireArg args "team_id" fun team_id =>
    requireArg args "user_id" fun user_id =>
    .call (ClickUpAPI.get_user team_id user_id)
      (fun user => do
        let u ← pyGet user "username" (.str "Unknown")
        let i ← pyGet user "id" (.str "Unknown")
        pure ("User: " ++ pyStr u ++ " (ID: " ++ pyStr i ++ ")"))),
  ("create-webhook", fun arguments =>
    guardArgs arguments fun args =>
    popArg args "team_id" fun team_id rest =>
    popArg rest "endpoint" fun endpoint rest2 =>
    popArg rest2 "events" fun events rest3 =>
    .call (ClickUpAPI.create_webhook team_id endpoint events rest3)
      (fun webhook => do
        let i ← pyGet webhook "id" (.str "Unknown")
        pure ("Created webhook: " ++ pyStr i))),
  ("get-webhooks", fun arguments =>
    guardArgs arguments fun args =>
    requireArg args "team_id" fun team_id =>
    .call (ClickUpAPI.get_webhooks team_id)
      (fun j => do
        let ws ← pyGet j "webhooks" (.arr [])
        joinLines "Webhooks:\n" (fun webhook => do
          let e ← pyGet webhook "endpoint" (.str "Unknown")
          let i ← pyGet webhook "id" (.str "Unknown")
          pure ("- " ++ pyStr e ++ " (ID: " ++ pyStr i ++ ")")) ws)),
  ("update-webhook", fun arguments =>
    guardArgs arguments fun args =>
    popArg args "webhook_id" fun webhook_id rest =>
    .call (ClickUpAPI.update_webhook webhook_id rest)
      (fun webhook => do
        let i ← pyGet webhook "id" (.str "Unknown")
        pure ("Updated webhook: " ++ pyStr i))),
  ("delete-webhook", fun arguments =>
    guardArgs arguments fun args =>
    requireArg args "webhook_id" fun webhook_id =>
    .call (ClickUpAPI.delete_webhook webhook_id) (fun _ => pure "Deleted webhook"))]

/-- Select the branch of `handle_call_tool` the name falls into: the
if/elif chain compares `name` against each literal in order, and the
final `else` raises `ValueError(f"Unknown tool: {name}")`. -/
def toolBranch (toolName : String) (arguments : Option Dict) : BranchSpec :=
  match branchHandlers.lookup toolName with
  | some h => h arguments
  | none => .failEarly (.unknownTool toolName)

/-- `handle_call_tool` with the client session already constructed: pick
the branch and execute it against the remote's answer. -/
def handleTool (st : ClickUpAPI) (toolName : String) (arguments : Option Dict)
    (resp : HttpResponse) : List HttpRequest × Except CallError (List Content) :=
  runBranch st (toolBranch toolName arguments) resp

/-- One `types.Tool` entry of the catalogue: name, description, and the
JSON input schema exactly as written in `list_tools`. -/
structure Tool where
  name : String
  description : String
  inputSchema : Json

/-- Schema fragment `{"type": "string"}`. -/
def schemaStr : Json := .obj [("type", .str "string")]

/-- Schema fragment `{"type": "string", "optional": True}`. -/
def schemaStrOpt : Json := .obj [("type", .str "string"), ("optional", .bool true)]

/-- Schema fragment `{"type": "integer"}`. -/
def schemaInt : Json := .obj [("type", .str "integer")]

/-- Schema fragment `{"type": "integer", "optional": True}`. -/
def schemaIntOpt : Json := .obj [("type", .str "integer"), ("optional", .bool true)]

/-- Schema fragment `{"type": "boolean", "optional": True}`. -/
def schemaBoolOpt : Json := .obj [("type", .str "boolean"), ("optional", .bool true)]

/-- Schema fragment `{"type": "object", "optional": True}`. -/
def schemaObjOpt : Json := .obj [("type", .str "object"), ("optional", .bool true)]

/-- Schema fragment `{"type": "array", "items": items}`. -/
def schemaArr (items : Json) : Json := .obj [("type", .str "array"), ("items", items)]

/-- Schema fragment `{"type": "array", "items": items, "optional": True}`. -/
def schemaArrOpt (items : Json) : Json :=
  .obj [("type", .str "array"), ("items", items), ("optional", .bool true)]

/-- Input schema `{"type": "object", "properties": {...}}` without a
`required` list. -/
def inputSchemaNoReq (props : Dict) : Json :=
  .obj [("type", .str "object"), ("properties", .obj props)]

/-- Input schema `{"type": "object", "properties": {...}, "required": [...]}`. -/
def inputSchemaReq (props : Dict) (required : List String) : Json :=
  .obj [("type", .str "object"), ("properties", .obj props),
        ("required", .arr (required.map Json.str))]

/-- The `list_tools` handler: the full Operation Descriptor catalogue, a
literal returned on every call, in the insertion order of the source. -/
def list_tools (_ : Unit) : List Tool := [
  { name := "get-teams", description := "Get all accessible teams/workspaces",
    inputSchema := inputSchemaNoReq [] },
  { name := "get-authorized-user",
    description := "Get information about the currently authorized user",
    inputSchema := inputSchemaNoReq [] },
  { name := "create-space", description := "Create a new space in a team",
    inputSchema := inputSchemaReq
      [("team_id", schemaStr), ("name", schemaStr),
       ("multiple_assignees", schemaBoolOpt), ("features", schemaObjOpt)]
      ["team_id", "name"] },
  { name := "create-folder", description := "Create a new folder in a space",
    inputSchema := inputSchemaReq [("space_id", schemaStr), ("name", schemaStr)]
      ["space_id", "name"] },
  { name := "create-folderless-list",
    description := "Create a list directly in a space without a folder",
    inputSchema := inputSchemaReq
      [("space_id", schemaStr), ("name", schemaStr), ("content", schemaStrOpt),
       ("due_date", schemaIntOpt), ("priority", schemaIntOpt),
       ("assignee", schemaIntOpt), ("status", schemaStrOpt)]
      ["space_id", "name"] },
  { name := "create-task", description := "Create a new task in a list",
    inputSchema := inputSchemaReq
      [("list_id", schemaStr), ("name", schemaStr), ("description", schemaStrOpt),
       ("assignees", schemaArrOpt schemaInt), ("tags", schemaArrOpt schemaStr),
       ("status", schemaStrOpt), ("priority", schemaIntOpt), ("due_date", schemaIntOpt),
       ("time_estimate", schemaIntOpt), ("notify_all", schemaBoolOpt)]
      ["list_id", "name"] },
  { name := "create-task-comment", description := "Create a comment on a task",
    inputSchema := inputSchemaReq
      [("task_id", schemaStr), ("comment_text", schemaStr),
       ("assignee", schemaIntOpt), ("notify_all", schemaBoolOpt)]
      ["task_id", "comment_text"] },
  { name := "create-checklist", description := "Create a checklist in a task",
    inputSchema := inputSchemaReq [("task_id", schemaStr), ("name", schemaStr)]
      ["task_id", "name"] },
  { name := "get-custom-fields", description := "Get accessible custom fields in a list",
    inputSchema := inputSchemaReq [("list_id", schemaStr)] ["list_id"] },
  { name := "start-time-entry", description := "Start time tracking for a task",
    inputSchema := inputSchemaReq
      [("task_id", schemaStr), ("description", schemaStrOpt), ("billable", schemaBoolOpt)]
      ["task_id"] },
  { name := "create-goal", description := "Create a new goal in a team",
    inputSchema := inputSchemaReq
      [("team_id", schemaStr), ("name", schemaStr), ("due_date", schemaIntOpt),
       ("description", schemaStrOpt), ("multiple_owners", schemaBoolOpt),
       ("owners", schemaArrOpt schemaInt), ("color", schemaStrOpt)]
      ["team_id", "name"] },
  { name := "create-space-tag", description := "Create a new tag in a space",
    inputSchema := inputSchemaReq
      [("space_id", schemaStr), ("name", schemaStr),
       ("tag_fg", schemaStrOpt), ("tag_bg", schemaStrOpt)]
      ["space_id", "name"] },
  { name := "add-task-dependency", description := "Add a dependency between tasks",
    inputSchema := inputSchemaReq
      [("task_id", schemaStr), ("depends_on", schemaStr), ("dependency_type", schemaStrOpt)]
      ["task_id", "depends_on"] },
  { name := "get-task-members", description := "Get members assigned to a task",
    inputSchema := inputSchemaReq [("task_id", schemaStr)] ["task_id"] },
  { name := "invite-guest", description := "Invite a guest to a workspace",
    inputSchema := inputSchemaReq
      [("team_id", schemaStr), ("email", schemaStr), ("can_edit_tags", schemaBoolOpt),
       ("can_see_time_estimated", schemaBoolOpt), ("can_see_time_spent", schemaBoolOpt)]
      ["team_id", "email"] },
  { name := "get-spaces", description := "Get all spaces in a team",
    inputSchema := inputSchemaReq [("team_id", schemaStr)] ["team_id"] },
  { name := "get-lists", description := "Get all lists in a space",
    inputSchema := inputSchemaReq [("space_id", schemaStr)] ["space_id"] },
  { name := "get-tasks", description := "Get tasks from a list",
    inputSchema := inputSchemaReq
      [("list_id", schemaStr), ("archived", schemaBoolOpt), ("page", schemaIntOpt),
       ("order_by", schemaStrOpt), ("reverse", schemaBoolOpt), ("subtasks", schemaBoolOpt),
       ("statuses", schemaArrOpt schemaStr), ("include_closed", schemaBoolOpt),
       ("assignees", schemaArrOpt schemaStr), ("due_date_gt", schemaIntOpt),
       ("due_date_lt", schemaIntOpt), ("date_created_gt", schemaIntOpt),
       ("date_created_lt", schemaIntOpt), ("date_updated_gt", schemaIntOpt),
       ("date_updated_lt", schemaIntOpt)]
      ["list_id"] },
  { name := "update-task", description := "Update a task",
    inputSchema := inputSchemaReq
      [("task_id", schemaStr), ("name", schemaStrOpt), ("description", schemaStrOpt),
       ("status", schemaStrOpt), ("priority", schemaIntOpt), ("due_date", schemaIntOpt),
       ("time_estimate", schemaIntOpt), ("assignees", schemaArrOpt schemaInt),
       ("archived", schemaBoolOpt)]
      ["task_id"] },
  { name := "get-task-watchers", description := "Get watchers of a task",
    inputSchema := inputSchemaReq [("task_id", schemaStr)] ["task_id"] },
  { name := "add-task-watcher", description := "Add a watcher to a task",
    inputSchema := inputSchemaReq [("task_id", schemaStr), ("watcher_id", schemaStr)]
      ["task_id", "watcher_id"] },
  { name := "get-task-dependencies", description := "Get dependencies of a task",
    inputSchema := inputSchemaReq [("task_id", schemaStr)] ["task_id"] },
  { name := "remove-task-dependency", description := "Remove a dependency from a task",
    inputSchema := inputSchemaReq [("task_id", schemaStr), ("dependency_id", schemaStr)]
      ["task_id", "dependency_id"] },
  { name := "get-comments", description := "Get comments on a task",
    inputSchema := inputSchemaReq [("task_id", schemaStr)] ["task_id"] },
  { name := "update-comment", description := "Update a comment",
    inputSchema := inputSchemaReq
      [("comment_id", schemaStr), ("comment_text", schemaStr),
       ("assignee", schemaIntOpt), ("resolved", schemaBoolOpt)]
      ["comment_id", "comment_text"] },
  { name := "delete-comment", description := "Delete a comment",
    inputSchema := inputSchemaReq [("comment_id", schemaStr)] ["comment_id"] },
  { name := "edit-checklist", description := "Edit a checklist",
    inputSchema := inputSchemaReq [("checklist_id", schemaStr), ("name", schemaStr)]
      ["checklist_id", "name"] },
  { name := "delete-checklist", description := "Delete a checklist",
    inputSchema := inputSchemaReq [("checklist_id", schemaStr)] ["checklist_id"] },
  { name := "create-checklist-item", description := "Create an item in a checklist",
    inputSchema := inputSchemaReq
      [("checklist_id", schemaStr), ("name", schemaStr),
       ("assignee", schemaIntOpt), ("due_date", schemaIntOpt)]
      ["checklist_id", "name"] },
  { name := "stop-time-entry", description := "Stop time tracking for a task",
    inputSchema := inputSchemaReq [("task_id", schemaStr)] ["task_id"] },
  { name := "get-time-entries", description := "Get time entries within a date range",
    inputSchema := inputSchemaReq
      [("team_id", schemaStr), ("start_date", schemaIntOpt), ("end_date", schemaIntOpt),
       ("assignee", schemaIntOpt), ("include_task_tags", schemaBoolOpt),
       ("include_location_names", schemaBoolOpt), ("space_id", schemaStrOpt),
       ("folder_id", schemaStrOpt), ("list_id", schemaStrOpt), ("task_id", schemaStrOpt),
       ("custom_task_ids", schemaBoolOpt)]
      ["team_id"] },
  { name := "get-time-entry-history", description := "Get time entry history",
    inputSchema := inputSchemaReq [("team_id", schemaStr), ("timer_id", schemaStr)]
      ["team_id", "timer_id"] },
  { name := "get-single-time-entry", description := "Get a single time entry",
    inputSchema := inputSchemaReq [("team_id", schemaStr), ("time_entry_id", schemaStr)]
      ["team_id", "time_entry_id"] },
  { name := "get-running-time-entry", description := "Get currently running time entry",
    inputSchema := inputSchemaReq [("team_id", schemaStr)] ["team_id"] },
  { name := "update-time-entry", description := "Update a time entry",
    inputSchema := inputSchemaReq
      [("team_id", schemaStr), ("timer_id", schemaStr), ("description", schemaStrOpt),
       ("start", schemaIntOpt), ("duration", schemaIntOpt), ("billable", schemaBoolOpt),
       ("tags", schemaArrOpt schemaStr)]
      ["team_id", "timer_id"] },
  { name := "delete-time-entry", description := "Delete a time entry",
    inputSchema := inputSchemaReq [("team_id", schemaStr), ("time_entry_id", schemaStr)]
      ["team_id", "time_entry_id"] },
  { name := "get-time-entry-tags", description := "Get all tags from time entries",
    inputSchema := inputSchemaReq [("team_id", schemaStr)] ["team_id"] },
  { name := "add-tags-to-time-entries", description := "Add tags to time entries",
    inputSchema := inputSchemaReq
      [("team_id", schemaStr), ("time_entry_ids", schemaArr schemaStr),
       ("tags", schemaArr (inputSchemaNoReq
         [("name", schemaStr), ("tag_bg", schemaStrOpt), ("tag_fg", schemaStrOpt)]))]
      ["team_id", "time_entry_ids", "tags"] },
  { name := "remove-tags-from-time-entries", description := "Remove tags from time entries",
    inputSchema := inputSchemaReq
      [("team_id", schemaStr), ("time_entry_ids", schemaArr schemaStr),
       ("tags", schemaArr (inputSchemaNoReq [("name", schemaStr)]))]
      ["team_id", "time_entry_ids", "tags"] },
  { name := "update-time-entry-tag", description := "Update a time entry tag",
    inputSchema := inputSchemaReq
      [("team_id", schemaStr), ("name", schemaStr), ("new_name", schemaStr),
       ("tag_bg", schemaStr), ("tag_fg", schemaStr)]
      ["team_id", "name", "new_name", "tag_bg", "tag_fg"] },
  { name := "edit-guest", description := "Edit a guest" ++ pySq ++ "s permissions",
    inputSchema := inputSchemaReq
      [("team_id", schemaStr), ("guest_id", schemaStr), ("can_edit_tags", schemaBoolOpt),
       ("can_see_time_estimated", schemaBoolOpt), ("can_see_time_spent", schemaBoolOpt)]
      ["team_id", "guest_id"] },
  { name := "remove-guest", description := "Remove a guest from workspace",
    inputSchema := inputSchemaReq [("team_id", schemaStr), ("guest_id", schemaStr)]
      ["team_id", "guest_id"] },
  { name := "get-guest", description := "Get guest information",
    inputSchema := inputSchemaReq [("team_id", schemaStr), ("guest_id", schemaStr)]
      ["team_id", "guest_id"] },
  { name := "add-guest-to-task", description := "Add a guest to a task",
    inputSchema := inputSchemaReq
      [("task_id", schemaStr), ("guest_id", schemaStr), ("permission_level", schemaStr)]
      ["task_id", "guest_id", "permission_level"] },
  { name := "remove-guest-from-task", description := "Remove a guest from a task",
    inputSchema := inputSchemaReq [("task_id", schemaStr), ("guest_id", schemaStr)]
      ["task_id", "guest_id"] },
  { name := "add-guest-to-list", description := "Add a guest to a list",
    inputSchema := inputSchemaReq
      [("list_id", schemaStr), ("guest_id", schemaStr), ("permission_level", schemaStr)]
      ["list_id", "guest_id", "permission_level"] },
  { name := "remove-guest-from-list", description := "Remove a guest from a list",
    inputSchema := inputSchemaReq [("list_id", schemaStr), ("guest_id", schemaStr)]
      ["list_id", "guest_id"] },
  { name := "add-guest-to-folder", description := "Add a guest to a folder",
    inputSchema := inputSchemaReq
      [("folder_id", schemaStr), ("guest_id", schemaStr), ("permission_level", schemaStr)]
      ["folder_id", "guest_id", "permission_level"] },
  { name := "remove-guest-from-folder", description := "Remove a guest from a folder",
    inputSchema := inputSchemaReq [("folder_id", schemaStr), ("guest_id", schemaStr)]
      ["folder_id", "guest_id"] },
  { name := "create-team-view", description := "Create a team view",
    inputSchema := inputSchemaReq
      [("team_id", schemaStr), ("name", schemaStr), ("type", schemaStr),
       ("parent", schemaStrOpt)]
      ["team_id", "name", "type"] },
  { name := "create-team-group", description := "Create a team (user group)",
    inputSchema := inputSchemaReq
      [("team_id", schemaStr), ("name", schemaStr), ("member_ids", schemaArr schemaInt)]
      ["team_id", "name", "member_ids"] },
  { name := "get-team-groups", description := "Get teams (user groups)",
    inputSchema := inputSchemaReq [("team_id", schemaStr)] ["team_id"] },
  { name := "update-team-group", description := "Update a team (user group)",
    inputSchema := inputSchemaReq
      [("group_id", schemaStr), ("name", schemaStrOpt),
       ("member_ids", schemaArrOpt schemaInt)]
      ["group_id"] },
  { name := "delete-team-group", description := "Delete a team (user group)",
    inputSchema := inputSchemaReq [("group_id", schemaStr)] ["group_id"] },
  { name := "get-workspace-seats", description := "Get workspace seats",
    inputSchema := inputSchemaReq [("workspace_id", schemaStr)] ["workspace_id"] },
  { name := "get-task-templates", description := "Get task templates",
    inputSchema := inputSchemaReq [("team_id", schemaStr), ("page", schemaIntOpt)]
      ["team_id"] },
  { name := "create-task-from-template", description := "Create a task from a template",
    inputSchema := inputSchemaReq
      [("list_id", schemaStr), ("template_id", schemaStr), ("name", schemaStr)]
      ["list_id", "template_id", "name"] },
  { name := "invite-user", description := "Invite a user to a workspace",
    inputSchema := inputSchemaReq
      [("team_id", schemaStr), ("email", schemaStr), ("admin", schemaBoolOpt),
       ("custom_role_id", schemaIntOpt)]
      ["team_id", "email"] },
  { name := "edit-user", description := "Edit a user in a workspace",
    inputSchema := inputSchemaReq
      [("team_id", schemaStr), ("user_id", schemaInt), ("username", schemaStrOpt),
       ("email", schemaStrOpt), ("color", schemaStrOpt), ("initials", schemaStrOpt),
       ("role", schemaIntOpt)]
      ["team_id", "user_id"] },
  { name := "remove-user", description := "Remove a user from a workspace",
    inputSchema := inputSchemaReq [("team_id", schemaStr), ("user_id", schemaInt)]
      ["team_id", "user_id"] },
  { name := "get-user", description := "Get user information",
    inputSchema := inputSchemaReq [("team_id", schemaStr), ("user_id", schemaInt)]
      ["team_id", "user_id"] },
  { name := "create-webhook", description := "Create a webhook",
    inputSchema := inputSchemaReq
      [("team_id", schemaStr), ("endpoint", schemaStr), ("events", schemaArr schemaStr),
       ("space_id", schemaStrOpt), ("list_id", schemaStrOpt), ("task_id", schemaStrOpt),
       ("health_check_url", schemaStrOpt)]
      ["team_id", "endpoint", "events"] },
  { name := "get-webhooks", description := "Get webhooks",
    inputSchema := inputSchemaReq [("team_id", schemaStr)] ["team_id"] },
  { name := "update-webhook", description := "Update a webhook",
    inputSchema := inputSchemaReq
      [("webhook_id", schemaStr), ("endpoint", schemaStrOpt),
       ("events", schemaArrOpt schemaStr), ("space_id", schemaStrOpt),
       ("list_id", schemaStrOpt), ("task_id", schemaStrOpt),
       ("health_check_url", schemaStrOpt), ("status", schemaStrOpt)]
      ["webhook_id"] },
  { name := "delete-webhook", description := "Delete a webhook",
    inputSchema := inputSchemaReq [("webhook_id", schemaStr)] ["webhook_id"] }]

/-- The catalogue's operation names, in insertion order. -/
def toolNames : List String := (list_tools ()).map Tool.name

/-- The `required` list of a descriptor's input schema (empty when the
schema declares none). -/
def Tool.requiredFields (t : Tool) : List String :=
  match t.inputSchema with
  | .obj d =>
    match dictLookup d "required" with
    | some (.arr xs) => xs.filterMap fun j => match j with | .str s => some s | _ => none
    | _ => []
  | _ => []

/-- Names of the descriptors that declare at least one required field. -/
def opsWithRequired : List String :=
  ((list_tools ()).filter fun t => !t.requiredFields.isEmpty).map Tool.name

/-- The request of the startup health check `get_authorized_user` through
a session. -/
def authUserRequest (st : ClickUpAPI) : HttpRequest :=
  toRequest st ClickUpAPI.get_authorized_user

/-- Whether one health-check attempt succeeds: `get_authorized_user` did
not raise (2xx status and a `"user"` field in the body). -/
def healthOk (resp : HttpResponse) : Bool :=
  match ClickUpAPI.get_authorized_user.run resp with
  | .ok _ => true
  | .error _ => false

/-- The `while retry_count < max_retries` loop of `initialize`, with
`max_retries = 3`: each iteration constructs the client, attempts the
health check against the oracle's answer for that attempt, returns on
success, and otherwise increments the counter, raising `RuntimeError`
when it reaches 3 and sleeping 1 second before the next attempt
otherwise.  Returns the issued requests, the sleeps performed (in
seconds), and the outcome.  `fuel` is `max_retries - retry_count`, so the
fuel-exhausted case is never reached from `initClient`. -/
def initLoop (st : ClickUpAPI) (responses : Nat → HttpResponse) :
    Nat → Nat → List HttpRequest × List Nat × Except CallError Unit
  | _, 0 => ([], [], .error .initFailed)
  | retry_count, fuel + 1 =>
    let req := authUserRequest st
    match ClickUpAPI.get_authorized_user.run (responses retry_count) with
    | .ok _ => ([req], [], .ok ())
    | .error _ =>
      if retry_count + 1 == 3 then ([req], [], .error .initFailed)
      else
        let (reqs, sleeps, r) := initLoop st responses (retry_count + 1) fuel
        (req :: reqs, 1 :: sleeps, r)

/-- The `initialize` coroutine of `server.py`: read `CLICKUP_API_TOKEN`
once (`None` when unset; the empty string is also falsy), raise the
missing-credential `ValueError` if it is absent, and otherwise run the
3-attempt health-check loop.  `responses` is the oracle giving the
remote's answer to each attempt. -/
def initClient (api_key : Option String) (responses : Nat → HttpResponse) :
    List HttpRequest × List Nat × Except CallError Unit :=
  match api_key with
  | none => ([], [], .error .missingCredential)
  | some k =>
    if k == "" then ([], [], .error .missingCredential)
    else initLoop (ClickUpAPI.init k) responses 0 3

/-- `handle_call_tool` including its lazy-initialization preamble: when no
client session exists yet, `initialize()` runs first — its health-check
requests are part of this invocation's trace — and only then is the tool
name examined.  The last match arm is unreachable: `initClient` never
succeeds without a token. -/
def handle_call_tool (session : Option ClickUpAPI) (api_key : Option String)
    (initResponses : Nat → HttpResponse) (toolName : String) (arguments : Option Dict)
    (resp : HttpResponse) : List HttpRequest × Except CallError (List Content) :=
  match session with
  | some st => handleTool st toolName arguments resp
  | none =>
    match api_key, initClient api_key initResponses with
    | some k, (ireqs, _, .ok _) =>
      let (reqs, res) := handleTool (ClickUpAPI.init k) toolName arguments resp
      (ireqs ++ reqs, res)
    | _, (ireqs, _, .error e) => (ireqs, .error e)
    | none, (ireqs, _, .ok _) => (ireqs, .error .missingCredential)

/-- A key that is not among the stored keys is not found by `List.lookup`. -/
theorem lookupNoneOfNotKey {A : Type} (k : String) (l : List (String × A))
    (h : ∀ p ∈ l, p.1 ≠ k) : l.lookup k = none := by
  induction l with
  | nil => rfl
  | cons p rest ih =>
    have h1 : (k == p.1) = false := beq_eq_false_iff_ne.mpr fun e => (h p (by simp)) e.symm
    simp only [List.lookup, h1, cond_false]
    exact ih fun q hq => h q (by simp [hq])

/-- Whether a branch decision is the `ValueError("Missing arguments")`
raise. -/
def BranchSpec.isMissingArgsFail : BranchSpec → Bool
  | .failEarly .missingArguments => true
  | _ => false

/-- Python falsiness of the `arguments` parameter (`not arguments`):
`None` or the empty mapping. -/
def argsFalsy : Option Dict → Bool
  | none => true
  | some d => dictIsEmpty d

/-- Every branch that decided to raise `Missing arguments` produces the
empty request trace and that error, whatever the session and response. -/
theorem runBranch_missingArgs (st : ClickUpAPI) (b : BranchSpec) (resp : HttpResponse)
    (h : b.isMissingArgsFail = true) : runBranch st b resp = ([], .error .missingArguments) := by
  cases b with
  | failEarly e => cases e <;> simp_all [BranchSpec.isMissingArgsFail, runBranch]
  | call c render => simp [BranchSpec.isMissingArgsFail] at h

/-- Computational sweep over the catalogue: every operation that declares
required fields raises `Missing arguments` on both the absent and the
empty mapping. -/
theorem branch_missingArgs_all : (opsWithRequired.all fun n =>
    (toolBranch n none).isMissingArgsFail && (toolBranch n (some [])).isMissingArgsFail) = true := by
  rfl

/-- A successful branch execution produced exactly one `TextContent`. -/
theorem runBranch_ok (st : ClickUpAPI) (b : BranchSpec) (resp : HttpResponse)
    (reqs : List HttpRequest) (cs : List Content)
    (h : runBranch st b resp = (reqs, .ok cs)) :
    ∃ t, cs = [TextContent t] := by
  cases b with
  | failEarly e => simp [runBranch] at h
  | call c render =>
    simp only [runBranch] at h
    rcases hp : c.run resp with e | j
    · rw [hp] at h; simp at h
    · rw [hp] at h
      dsimp only at h
      rcases hr : render j with e | t
      · rw [hr] at h; simp at h
      · rw [hr] at h
        dsimp only at h
        have h2 := congrArg Prod.snd h
        simp at h2
        exact ⟨t, h2.symm⟩

/-- The example invocation of the C1 scenario:
`{list_id: "123", name: "Write spec"}`. -/
def c1Args : Dict := [("list_id", Json.str "123"), ("name", Json.str "Write spec")]

/-- The mocked 200 response of the C1 scenario. -/
def c1Resp : HttpResponse :=
  { status := 200, body := Json.obj [("id", Json.str "9"), ("name", Json.str "Write spec")] }

/-- Claim C1 counterexample: calling `create-task` with exactly
`{list_id: "123", name: "Write spec"}` does NOT send the JSON body
`{"name": "Write spec"}` — the handler extracts every optional field with
`arguments.get(...)`, so the absent optionals are forwarded as
`null`/`[]`/`False` rather than excluded from the outbound request. -/
theorem C1_create_task_body_counterexample :
    ((handleTool (ClickUpAPI.init "tok") "create-task" (some c1Args) c1Resp).1.map
      (fun r => r.body)) ≠ [some (Json.obj [("name", Json.str "Write spec")])] := by
  have e : ((handleTool (ClickUpAPI.init "tok") "create-task" (some c1Args) c1Resp).1.map
      (fun r => r.body)) =
      [some (Json.obj [("name", Json.str "Write spec"), ("description", Json.null),
        ("assignees", Json.arr []), ("tags", Json.arr []), ("status", Json.null),
        ("priority", Json.null), ("due_date", Json.null), ("time_estimate", Json.null),
        ("notify_all", Json.bool false)])] := rfl
  rw [e]
  intro h
  simp at h

/-- Claim C1 (amended): calling `create-task` with exactly
`{list_id: "123", name: "Write spec"}` issues one POST to
`/list/123/task`, but its JSON body carries every declared optional field
padded with `null` (and the defaults `[]` for `assignees`/`tags` and
`false` for `notify_all`) next to `"name"`; on the mocked 200 response
`{"id": "9", "name": "Write spec"}` the adapter still returns the single
text block `"Created task: Write spec (ID: 9)"`. -/
theorem C1_create_task_amended :
    handleTool (ClickUpAPI.init "tok") "create-task" (some c1Args) c1Resp =
      ([{ verb := .post, url := "https://api.clickup.com/api/v2/list/123/task",
          headers := [("Authorization", "tok"), ("Content-Type", "application/json")],
          params := [],
          body := some (Json.obj [("name", Json.str "Write spec"), ("description", Json.null),
            ("assignees", Json.arr []), ("tags", Json.arr []), ("status", Json.null),
            ("priority", Json.null), ("due_date", Json.null), ("time_estimate", Json.null),
            ("notify_all", Json.bool false)]) }],
       .ok [TextContent "Created task: Write spec (ID: 9)"]) := by
  rfl

/-- Claim C2 counterexample: `create-team-view` declares
`["team_id", "name", "type"]` as required, yet invoking it with the
non-empty mapping `{team_id: "1"}` — which omits the required `name` and
`type` — does not fail with `Missing arguments`: the branch pops only
`team_id`, forwards the rest, issues the HTTP request, and succeeds. -/
theorem C2_partial_args_counterexample :
    (((list_tools ()).filter fun t => t.name == "create-team-view").map Tool.requiredFields) =
      [["team_id", "name", "type"]] ∧
    handleTool (ClickUpAPI.init "tok") "create-team-view" (some [("team_id", Json.str "1")])
        { status := 200, body := Json.obj [("name", Json.str "V"), ("id", Json.str "7")] } =
      ([{ verb := .post, url := "https://api.clickup.com/api/v2/team/1/view",
          headers := [("Authorization", "tok"), ("Content-Type", "application/json")],
          params := [], body := some (Json.obj []) }],
       .ok [TextContent "Created team view: V (ID: 7)"]) :=
  ⟨rfl, rfl⟩

/-- Claim C2 (amended): for every operation that declares required
fields, an absent or empty argument mapping fails with
`Missing arguments` and issues zero HTTP requests; but a non-empty
mapping missing a required field is not uniformly rejected that way —
e.g. `create-space` without `team_id` fails with `KeyError("team_id")`
(still zero requests), and `create-team-view` (see the counterexample)
even issues the request. -/
theorem C2_missing_args_amended (st : ClickUpAPI) (n : String) (hn : n ∈ opsWithRequired)
    (args : Option Dict) (hargs : argsFalsy args = true) (resp : HttpResponse) :
    handleTool st n args resp = ([], .error .missingArguments) ∧
    ∀ (st2 : ClickUpAPI) (resp2 : HttpResponse),
      handleTool st2 "create-space" (some [("name", Json.str "X")]) resp2 =
        ([], .error (.pyKeyError "team_id")) := by
  refine ⟨?_, fun st2 resp2 => rfl⟩
  have hall := List.all_eq_true.mp branch_missingArgs_all n hn
  simp only [Bool.and_eq_true] at hall
  cases args with
  | none => exact runBranch_missingArgs st _ resp hall.1
  | some d =>
    cases d with
    | nil => exact runBranch_missingArgs st _ resp hall.2
    | cons p rest => simp [argsFalsy, dictIsEmpty] at hargs

/-- Witness for C2: `create-space` declares required fields, and invoking
it with an absent mapping fails with `Missing arguments` and an empty
request trace. -/
theorem C2_missing_args_amended_witness :
    ("create-space" ∈ opsWithRequired) ∧ argsFalsy none = true ∧
    handleTool (ClickUpAPI.init "tok") "create-space" none
        { status := 200, body := Json.null } =
      ([], .error .missingArguments) :=
  ⟨by decide, rfl,
    (C2_missing_args_amended (ClickUpAPI.init "tok") "create-space" (by decide) none rfl
      { status := 200, body := Json.null }).1⟩

/-- Claim C3: every Remote Client method ends in the same
`raise_for_status` / decode tail, so on any non-2xx status it raises the
`HTTPStatusError` carrying the status code and response body, and never
returns a successful (empty or otherwise) result. -/
theorem C3_non2xx_raises (c : ClientCall) (resp : HttpResponse)
    (h : is2xx resp.status = false) :
    c.run resp = .error (.remoteRequestFailed resp.status resp.body) ∧
    ∀ j, c.run resp ≠ .ok j := by
  have he : c.run resp = .error (.remoteRequestFailed resp.status resp.body) := by
    unfold ClientCall.run processResponse raise_for_status
    rw [h]
    simp
  exact ⟨he, fun j hj => by rw [he] at hj; cases hj⟩

/-- Witness for C3: a simulated 404 on the `get_teams` read surfaces as
the request-failed error carrying 404, not as an empty list. -/
theorem C3_non2xx_raises_witness :
    is2xx 404 = false ∧
    ClickUpAPI.get_teams.run { status := 404, body := Json.obj [] } =
      .error (.remoteRequestFailed 404 (Json.obj [])) :=
  ⟨rfl, (C3_non2xx_raises ClickUpAPI.get_teams { status := 404, body := Json.obj [] } rfl).1⟩

/-- An oracle whose every health-check answer is a 200 with a `"user"`
field, so the startup check succeeds on the first attempt. -/
def okUserResponses : Nat → HttpResponse := fun _ =>
  { status := 200
    body := Json.obj [("user", Json.obj [("username", Json.str "u"), ("id", Json.num 1)])] }

/-- Claim C4 counterexample: when no client session exists yet, invoking
an operation name outside the catalogue still triggers the lazy
initialization, whose startup health check issues one HTTP request before
the unknown-name error is raised — not zero requests. -/
theorem C4_cold_start_counterexample :
    (handle_call_tool none (some "tok") okUserResponses "frobnicate-widgets" none
        { status := 200, body := Json.null }).2 =
      .error (.unknownTool "frobnicate-widgets") ∧
    (handle_call_tool none (some "tok") okUserResponses "frobnicate-widgets" none
        { status := 200, body := Json.null }).1.length = 1 :=
  ⟨rfl, rfl⟩

/-- Claim C4 (amended): once the client session exists, every invocation
whose operation name is not in the catalogue fails with the unknown-tool
error and issues zero HTTP requests; the error is a value of the
invocation, not a crash.  (On a cold start the lazy initialization issues
its health-check request first — see the counterexample.) -/
theorem C4_unknown_op_amended (st : ClickUpAPI) (n : String) (h : n ∉ toolNames)
    (args : Option Dict) (resp : HttpResponse) :
    handleTool st n args resp = ([], .error (.unknownTool n)) := by
  have hkeys : ∀ x ∈ branchHandlers.map Prod.fst, x ∈ toolNames := by decide
  have hnone : branchHandlers.lookup n = none :=
    lookupNoneOfNotKey n branchHandlers fun p hp he =>
      h (he ▸ hkeys p.1 (List.mem_map_of_mem Prod.fst hp))
  unfold handleTool toolBranch
  rw [hnone]
  rfl

/-- Witness for C4: a name outside the catalogue, dispatched on a live
session, returns the unknown-tool error with no requests. -/
theorem C4_unknown_op_amended_witness :
    ("frobnicate-widgets" ∉ toolNames) ∧
    handleTool (ClickUpAPI.init "tok") "frobnicate-widgets" none
        { status := 200, body := Json.null } =
      ([], .error (.unknownTool "frobnicate-widgets")) :=
  ⟨by decide,
    C4_unknown_op_amended (ClickUpAPI.init "tok") "frobnicate-widgets" (by decide) none
      { status := 200, body := Json.null }⟩

/-- Each dispatcher invocation issues at most one HTTP request: every
branch either fails before calling or performs exactly one call, with no
per-call retry. -/
theorem handleTool_at_most_one_request (st : ClickUpAPI) (n : String) (args : Option Dict)
    (resp : HttpResponse) : (handleTool st n args resp).1.length ≤ 1 := by
  unfold handleTool
  cases toolBranch n args with
  | failEarly e => simp [runBranch]
  | call c render => simp [runBranch]

/-- Claim C5: client construction fails with the missing-credential error
when the token is absent (or empty, which `not api_key` also catches);
otherwise the startup health check runs at most 3 times with a 1-second
sleep between consecutive attempts, returns as soon as one attempt
succeeds (one request when the first succeeds, two when only the second
does), and fails if and only if all three attempts fail — in which case
exactly 3 requests and 2 sleeps happened; every request of the loop is
the `get_authorized_user` health check; and no dispatcher invocation ever
issues more than one request (no per-call retry). -/
theorem C5_startup_retry (tok : String) (htok : tok ≠ "") (responses : Nat → HttpResponse) :
    ((∀ (st : ClickUpAPI) (n : String) (args : Option Dict) (resp : HttpResponse),
        (handleTool st n args resp).1.length ≤ 1)
    ∧ initClient none responses = ([], [], .error .missingCredential)
    ∧ initClient (some "") responses = ([], [], .error .missingCredential))
    ∧ ((initClient (some tok) responses).1.length ≤ 3)
    ∧ (∀ s ∈ (initClient (some tok) responses).2.1, s = 1)
    ∧ ((initClient (some tok) responses).2.2 = .ok () ↔
        healthOk (responses 0) = true ∨ healthOk (responses 1) = true ∨
        healthOk (responses 2) = true)
    ∧ (healthOk (responses 0) = true → (initClient (some tok) responses).1.length = 1)
    ∧ (healthOk (responses 0) = false → healthOk (responses 1) = true →
        (initClient (some tok) responses).1.length = 2 ∧
        (initClient (some tok) responses).2.1 = [1])
    ∧ ((initClient (some tok) responses).2.2 ≠ .ok () →
        (initClient (some tok) responses).1.length = 3 ∧
        (initClient (some tok) responses).2.1 = [1, 1])
    ∧ (∀ r ∈ (initClient (some tok) responses).1, r = authUserRequest (ClickUpAPI.init tok)) := by
  have hbe : (tok == "") = false := beq_eq_false_iff_ne.mpr htok
  refine ⟨⟨fun st n args resp => handleTool_at_most_one_request st n args resp, rfl, rfl⟩, ?_⟩
  simp only [initClient, hbe, Bool.false_eq_true, if_false]
  unfold healthOk
  rcases h0 : ClickUpAPI.get_authorized_user.run (responses 0) with e0 | v0 <;>
    rcases h1 : ClickUpAPI.get_authorized_user.run (responses 1) with e1 | v1 <;>
    rcases h2 : ClickUpAPI.get_authorized_user.run (responses 2) with e2 | v2 <;>
    simp_all [initLoop]

/-- Witness for C5: with a non-empty token and an oracle whose first
health-check answer succeeds, construction issues exactly one request. -/
theorem C5_startup_retry_witness :
    ("k" : String) ≠ "" ∧ (initClient (some "k") okUserResponses).1.length = 1 :=
  ⟨by decide, (C5_startup_retry "k" (by decide) okUserResponses).2.2.2.2.1 rfl⟩

/-- Claim C6 counterexample: `get-authorized-user` renders with direct
indexing (`user['username']`), so a 200 result whose `user` object lacks
`username` makes the call fail with `KeyError("username")` instead of
succeeding with the placeholder `"Unknown"`. -/
theorem C6_indexing_counterexample :
    (handleTool (ClickUpAPI.init "tok") "get-authorized-user" none
        { status := 200, body := Json.obj [("user", Json.obj [("id", Json.num 1)])] }).2 =
      .error (.pyKeyError "username") := rfl

/-- Claim C6 (amended): whether a missing summary field renders as the
placeholder `"Unknown"` or fails depends on the branch.  Branches whose
summaries use `.get` with a default render the placeholder and still
succeed — e.g. `get-teams` on a team object with an id but no name, and
also create branches such as `create-webhook` on a result with no `id`;
but the thirteen branches that index the result directly
(`get-authorized-user`, `get-custom-fields`, `create-space`,
`create-folder`, `create-folderless-list`, `create-task`,
`create-task-comment`, `create-checklist`, `start-time-entry`,
`create-goal`, `create-space-tag`, `add-task-dependency`,
`invite-guest`) fail with a `KeyError` instead — e.g.
`get-custom-fields` on a field object with no `name` (see also the
counterexample for `get-authorized-user`). -/
theorem C6_render_unknown_amended (st : ClickUpAPI) (d : Dict)
    (hn : dictLookup d "name" = none) (hi : dictLookup d "id" = some (.str "7")) :
    (handleTool st "get-teams" none
        { status := 200, body := .obj [("teams", .arr [.obj d])] }).2 =
      .ok [TextContent "Available teams:\n- Unknown (ID: 7)"] ∧
    (∀ st2 : ClickUpAPI,
      (handleTool st2 "get-custom-fields" (some [("list_id", Json.str "5")])
          { status := 200, body := Json.obj [("fields", Json.arr [Json.obj []])] }).2 =
        .error (.pyKeyError "name")) ∧
    ∀ st3 : ClickUpAPI,
      (handleTool st3 "create-webhook"
          (some [("team_id", Json.str "1"), ("endpoint", Json.str "e"), ("events", Json.arr [])])
          { status := 200, body := Json.obj [] }).2 =
        .ok [TextContent "Created webhook: Unknown"] := by
  refine ⟨?_, fun st2 => rfl, fun st3 => rfl⟩
  have e1 : handleTool st "get-teams" none { status := 200, body := .obj [("teams", .arr [.obj d])] } =
      runBranch st (.call ClickUpAPI.get_teams (joinLines "Available teams:\n" lineNameId))
        { status := 200, body := .obj [("teams", .arr [.obj d])] } := rfl
  rw [e1]
  simp only [runBranch]
  have e2 : ClickUpAPI.get_teams.run { status := 200, body := .obj [("teams", .arr [.obj d])] } =
      .ok (.arr [.obj d]) := rfl
  rw [e2]
  simp only [joinLines, pyIter, lineNameId, pyGet, dictGet, hn, hi, Option.getD,
    List.mapM_cons, List.mapM_nil, bind, Except.bind, pure, Except.pure, List.intercalate]
  rfl

/-- Witness for C6: the team object `{"id": "7"}` has no name, and the
`get-teams` summary renders it as `- Unknown (ID: 7)` in a successful
result. -/
theorem C6_render_unknown_amended_witness :
    dictLookup [("id", Json.str "7")] "name" = none ∧
    dictLookup [("id", Json.str "7")] "id" = some (Json.str "7") ∧
    (handleTool (ClickUpAPI.init "tok") "get-teams" none
        { status := 200, body := Json.obj [("teams", Json.arr [Json.obj [("id", Json.str "7")]])] }).2 =
      .ok [TextContent "Available teams:\n- Unknown (ID: 7)"] :=
  ⟨rfl, rfl,
    (C6_render_unknown_amended (ClickUpAPI.init "tok") [("id", Json.str "7")] rfl rfl).1⟩

/-- Claim C7: every request any invocation issues through a session
constructed from token `k` carries exactly the headers fixed at
construction — the raw token under `Authorization` (not `"Bearer " ++ k`)
and `Content-Type: application/json` — and its URL extends the base path
`https://api.clickup.com/api/v2`; the headers are the same for all calls
because they are part of the session, not of any branch. -/
theorem C7_fixed_headers_base (k : String) (n : String) (args : Option Dict)
    (resp : HttpResponse) (r : HttpRequest)
    (hr : r ∈ (handleTool (ClickUpAPI.init k) n args resp).1) :
    r.headers = [("Authorization", k), ("Content-Type", "application/json")] ∧
    r.headers.lookup "Authorization" = some k ∧
    r.headers.lookup "Authorization" ≠ some ("Bearer " ++ k) ∧
    ∃ p, r.url = "https://api.clickup.com/api/v2" ++ p := by
  have hb : k ≠ "Bearer " ++ k := by
    intro h
    have hl := congrArg String.length h
    rw [String.length_append, show ("Bearer " : String).length = 7 from rfl] at hl
    omega
  unfold handleTool at hr
  cases hbs : toolBranch n args with
  | failEarly e => rw [hbs] at hr; simp [runBranch] at hr
  | call c render =>
    rw [hbs] at hr
    simp only [runBranch, List.mem_singleton] at hr
    subst hr
    exact ⟨rfl, rfl, fun hx => hb (Option.some.inj hx), c.path, rfl⟩

/-- Witness for C7: the one request of a `get-teams` invocation through a
session built from token `"k"` carries exactly the constructed headers. -/
theorem C7_fixed_headers_base_witness :
    (toRequest (ClickUpAPI.init "k") ClickUpAPI.get_teams).headers =
      [("Authorization", "k"), ("Content-Type", "application/json")] :=
  (C7_fixed_headers_base "k" "get-teams" none { status := 200, body := Json.obj [("teams", Json.arr [])] }
    (toRequest (ClickUpAPI.init "k") ClickUpAPI.get_teams)
    (show _ ∈ [toRequest (ClickUpAPI.init "k") ClickUpAPI.get_teams] from
      List.mem_singleton.mpr rfl)).1

/-- Claim C8: listing operations is pure and idempotent — every call
returns the identical descriptor list (same descriptors, same insertion
order), and the embedding's type (no request trace, no state) reflects
that the handler is a single literal return with no side effects; its
names agree with `toolNames`. -/
theorem C8_list_tools_pure :
    (∀ u v : Unit, list_tools u = list_tools v) ∧
    (list_tools ()).map Tool.name = toolNames :=
  ⟨fun _ _ => rfl, rfl⟩

/-- Claim C9: every successful invocation returns exactly one content
block, and that block is a text block — no branch returns an empty
sequence, several blocks, or a non-text block. -/
theorem C9_single_text_block (st : ClickUpAPI) (n : String) (args : Option Dict)
    (resp : HttpResponse) (reqs : List HttpRequest) (cs : List Content)
    (h : handleTool st n args resp = (reqs, .ok cs)) :
    cs.length = 1 ∧ ∀ c ∈ cs, c.type = "text" := by
  obtain ⟨t, rfl⟩ := runBranch_ok st (toolBranch n args) resp reqs cs h
  exact ⟨rfl, by intro c hc; simp only [List.mem_singleton] at hc; subst hc; rfl⟩

/-- Witness for C9: the successful `get-teams` invocation of the spec's
example scenario returns the single text block. -/
theorem C9_single_text_block_witness :
    (([TextContent "Available teams:\n- Acme (ID: 1)"] : List Content).length = 1) ∧
    ∀ c ∈ ([TextContent "Available teams:\n- Acme (ID: 1)"] : List Content), c.type = "text" :=
  C9_single_text_block (ClickUpAPI.init "tok") "get-teams" none
    { status := 200, body := Json.obj [("teams", Json.arr [Json.obj [("id", Json.str "1"), ("name", Json.str "Acme")]])] }
    [toRequest (ClickUpAPI.init "tok") ClickUpAPI.get_teams]
    [TextContent "Available teams:\n- Acme (ID: 1)"] rfl

/-- Claim C10: the whole-mapping branches forward every key except the
popped path identifiers verbatim, with no check against the declared
schema — `update-task` puts the rest of the mapping into the JSON body,
`get-tasks` into the query parameters, `update-webhook` and
`update-time-entry` into the body after their pops — so undeclared
caller-supplied keys reach the remote service unchanged. -/
theorem C10_forward_verbatim (st : ClickUpAPI) (resp : HttpResponse) :
    (∀ (args : Dict) (v : Json), dictGetItem args "task_id" = .ok v →
      (handleTool st "update-task" (some args) resp).1 =
        [{ verb := .put, url := st.base_url ++ ("/task/" ++ pyStr v), headers := st.headers,
           params := [], body := some (.obj (dictErase args "task_id")) }]) ∧
    (∀ (args : Dict) (v : Json), dictGetItem args "list_id" = .ok v →
      (handleTool st "get-tasks" (some args) resp).1 =
        [{ verb := .get, url := st.base_url ++ ("/list/" ++ pyStr v ++ "/task"),
           headers := st.headers, params := args.filter (fun q => q.1 != "list_id"),
           body := none }]) ∧
    (∀ (args : Dict) (v : Json), dictGetItem args "webhook_id" = .ok v →
      (handleTool st "update-webhook" (some args) resp).1 =
        [{ verb := .put, url := st.base_url ++ ("/webhook/" ++ pyStr v), headers := st.headers,
           params := [], body := some (.obj (dictErase args "webhook_id")) }]) ∧
    (∀ (args : Dict) (v w : Json), dictGetItem args "team_id" = .ok v →
      dictGetItem (dictErase args "team_id") "timer_id" = .ok w →
      (handleTool st "update-time-entry" (some args) resp).1 =
        [{ verb := .put,
           url := st.base_url ++ ("/team/" ++ pyStr v ++ "/time_entries/" ++ pyStr w),
           headers := st.headers, params := [],
           body := some (.obj (dictErase (dictErase args "team_id") "timer_id")) }]) := by
  refine ⟨?_, ?_, ?_, ?_⟩
  · intro args v hv
    cases args with
    | nil => simp [dictGetItem, dictLookup] at hv
    | cons p rest =>
      have e1 : handleTool st "update-task" (some (p :: rest)) resp =
          runBranch st (match dictGetItem (p :: rest) "task_id" with
            | .error e => .failEarly e
            | .ok task_id =>
              .call (ClickUpAPI.update_task task_id (dictErase (p :: rest) "task_id"))
                (fun task => do
                  let n ← pyGet task "name" (.str "Unknown")
                  let i ← pyGet task "id" (.str "Unknown")
                  pure ("Updated task: " ++ pyStr n ++ " (ID: " ++ pyStr i ++ ")"))) resp := rfl
      rw [e1, hv]
      rfl
  · intro args v hv
    cases args with
    | nil => simp [dictGetItem, dictLookup] at hv
    | cons p rest =>
      have e1 : handleTool st "get-tasks" (some (p :: rest)) resp =
          runBranch st (match dictGetItem (p :: rest) "list_id" with
            | .error e => .failEarly e
            | .ok list_id =>
              .call (ClickUpAPI.get_tasks list_id ((p :: rest).filter (fun q => q.1 != "list_id")))
                (joinLines "Tasks:\n" lineNameId)) resp := rfl
      rw [e1, hv]
      rfl
  · intro args v hv
    cases args with
    | nil => simp [dictGetItem, dictLookup] at hv
    | cons p rest =>
      have e1 : handleTool st "update-webhook" (some (p :: rest)) resp =
          runBranch st (match dictGetItem (p :: rest) "webhook_id" with
            | .error e => .failEarly e
            | .ok webhook_id =>
              .call (ClickUpAPI.update_webhook webhook_id (dictErase (p :: rest) "webhook_id"))
                (fun webhook => do
                  let i ← pyGet webhook "id" (.str "Unknown")
                  pure ("Updated webhook: " ++ pyStr i))) resp := rfl
      rw [e1, hv]
      rfl
  · intro args v w hv hw
    cases args with
    | nil => simp [dictGetItem, dictLookup] at hv
    | cons p rest =>
      have e1 : handleTool st "update-time-entry" (some (p :: rest)) resp =
          runBranch st (match dictGetItem (p :: rest) "team_id" with
            | .error e => .failEarly e
            | .ok team_id =>
              match dictGetItem (dictErase (p :: rest) "team_id") "timer_id" with
              | .error e => .failEarly e
              | .ok timer_id =>
                .call (ClickUpAPI.update_time_entry team_id timer_id
                    (dictErase (dictErase (p :: rest) "team_id") "timer_id"))
                  (fun entry => do
                    let d ← pyGet entry "description" (.str "No description")
                    let dur ← pyGet entry "duration" (.num 0)
                    pure ("Updated time entry: " ++ pyStr d ++ " (" ++ pyStr dur ++ " seconds)"))) resp := rfl
      rw [e1, hv, hw]
      rfl

/-- Witness for C10: `update-task` with the undeclared key
`custom_weird_key` forwards it verbatim into the JSON body of the one PUT
request. -/
theorem C10_forward_verbatim_witness :
    dictGetItem [("task_id", Json.str "t1"), ("custom_weird_key", Json.str "x")] "task_id" =
      .ok (Json.str "t1") ∧
    (handleTool (ClickUpAPI.init "k") "update-task"
        (some [("task_id", Json.str "t1"), ("custom_weird_key", Json.str "x")])
        { status := 200, body := Json.obj [] }).1 =
      [{ verb := .put, url := "https://api.clickup.com/api/v2" ++ ("/task/" ++ pyStr (Json.str "t1")),
         headers := (ClickUpAPI.init "k").headers, params := [],
         body := some (Json.obj [("custom_weird_key", Json.str "x")]) }] :=
  ⟨rfl, (C10_forward_verbatim (ClickUpAPI.init "k") { status := 200, body := Json.obj [] }).1
    [("task_id", Json.str "t1"), ("custom_weird_key", Json.str "x")] (Json.str "t1") rfl⟩
